import Mathlib

/-! Flip 4 Speed: the game simulation of `f4s.c`.

A shallow embedding of the game state, of `f4s_game_reset_obstacle`,
`f4s_game_init_game`, `f4s_game_process_game_step` and of one iteration of the
event loop of `f4s_game_app`, followed by the properties proved about them.

Conventions of the embedding:

* `int` is modelled by `Int`; the two additions of the source that are not
  protected by a guard (`obstacle_y[i] += obstacle_speed`, `road_offset + 2`)
  go through `int_add`, which wraps to 32 bits in two's complement. The other
  `int` operations are applied to values a guard keeps far from the limits.
* `unsigned int score` is modelled by `Nat`, `score++` is taken modulo `2^32`.
* `rand()` is a stream of naturals, read front to back.
* the notification service is a log to which each sent sequence is appended.
* the use of the mutex is followed on the list of operations (`Op`) a function
  performs in program order: taking and releasing the mutex, and the accesses
  to the game state.
-/

namespace F4S

/-! ## Constants -/

@[simp]
def ROAD_LEFT : Int := 40
@[simp]
def ROAD_RIGHT : Int := 72
@[simp]
def PLAYER_Y : Int := 54
@[simp]
def OBSTACLE_COUNT : Nat := 2
@[simp]
def INITIAL_OBSTACLE_SPEED : Int := 2
@[simp]
def SPEED_INCREMENT : Int := 1
@[simp]
def MAX_SPEED : Int := 6
@[simp]
def INITIAL_DELAY : Int := 33
@[simp]
def MIN_DELAY : Int := 16

/-- Number of values of an `unsigned int` (32 bits). -/
@[simp]
def UINT_MODULUS : Nat := 4294967296

/-! ## Machine arithmetic -/

/-- Two's complement reduction of an integer to the range of a 32-bit `int`. -/
def wrap_int (v : Int) : Int := (v + 2147483648) % 4294967296 - 2147483648

/-- The sum of two `int` values. -/
def int_add (a b : Int) : Int := wrap_int (a + b)

/-- The remainder of C on `int`: truncated division, sign of the dividend. -/
def int_rem (a b : Int) : Int := Int.tmod a b

/-- The increment of an `unsigned int`. -/
def uint_incr (n : Nat) : Nat := (n + 1) % UINT_MODULUS

/-! ## Data model -/

/-- An `int[OBSTACLE_COUNT]` array. -/
structure IntArray2 where
  e0 : Int
  e1 : Int
deriving DecidableEq, Repr

/-- Read `a[i]`. -/
def IntArray2.get (a : IntArray2) (i : Nat) : Int :=
  if i = 0 then a.e0 else a.e1

/-- Write `a[i] = v`. -/
def IntArray2.set (a : IntArray2) (i : Nat) (v : Int) : IntArray2 :=
  if i = 0 then { a with e0 := v } else { a with e1 := v }

/-- The fields of `Flip4SpeedState` other than the mutex handle. -/
structure Flip4SpeedState where
  road_offset : Int
  player_x : Int
  obstacle_x : IntArray2
  obstacle_y : IntArray2
  score : Nat
  game_over : Bool
  obstacle_speed : Int
  game_delay : Int
deriving DecidableEq, Repr

/-- The two sequences the game sends to the notification service. -/
inductive NotificationSequence where
  | sequence_fail
  | sequence_obstacle
deriving DecidableEq, Repr

/-- One call to the notification service. -/
inductive NotificationCall where
  | notification_message (seq : NotificationSequence)
  | notification_message_block (seq : NotificationSequence)
deriving DecidableEq, Repr

/-- Everything the game code reads or writes: the game state, the results
`rand()` has still to return, and the notifications sent so far. -/
structure World where
  st : Flip4SpeedState
  rnd : Nat → Nat
  log : List NotificationCall

/-- The `EventType` enumeration. -/
inductive EventType where
  | EventTypeTick
  | EventTypeKey
deriving DecidableEq, Repr

/-- The keys of the input service; `InputKeyOther` stands for any value the
`switch` of the event loop sends to `default`. -/
inductive InputKey where
  | InputKeyUp
  | InputKeyDown
  | InputKeyRight
  | InputKeyLeft
  | InputKeyOk
  | InputKeyBack
  | InputKeyOther
deriving DecidableEq, Repr

/-- The transitions of the input service; only `InputTypePress` is named by
the game. -/
inductive InputType where
  | InputTypePress
  | InputTypeRelease
  | InputTypeShort
  | InputTypeLong
  | InputTypeRepeat
deriving DecidableEq, Repr

/-- The part of `InputEvent` the game reads. -/
structure InputEvent where
  type : InputType
  key : InputKey
deriving DecidableEq, Repr

/-- An element of the event queue. -/
structure Flip4SpeedEvent where
  type : EventType
  input : InputEvent
deriving DecidableEq, Repr

/-! ## Operations -/

/-- A call of `rand()`: the front of the stream, and the world with the stream
advanced. -/
def rand (w : World) : Int × World :=
  ((w.rnd 0 : Int), { w with rnd := fun n => w.rnd (n + 1) })

/-- The function `f4s_game_reset_obstacle`: a random lane and `y = -10` for
obstacle `index`. -/
def f4s_game_reset_obstacle (w : World) (index : Nat) : World :=
  let (r, w1) := rand w
  { w1 with st := { w1.st with
      obstacle_x := w1.st.obstacle_x.set index (ROAD_LEFT + int_rem r 3 * 16)
      obstacle_y := w1.st.obstacle_y.set index (-10) } }

/-- The loop `for (i = index; i < index + n; i++) f4s_game_reset_obstacle(i)`. -/
def reset_obstacles : Nat → Nat → World → World
  | 0, _, w => w
  | n + 1, index, w => reset_obstacles n (index + 1) (f4s_game_reset_obstacle w index)

/-- The function `f4s_game_init_game`: the session-start values, then both
obstacles reset in index order. The field `road_offset` is not assigned. -/
def f4s_game_init_game (w : World) : World :=
  let w1 : World := { w with st := { w.st with
      game_over := false
      player_x := 56
      score := 0
      obstacle_speed := INITIAL_OBSTACLE_SPEED
      game_delay := INITIAL_DELAY } }
  reset_obstacles OBSTACLE_COUNT 0 w1

/-- Send a sequence without waiting. -/
def notification_message (w : World) (seq : NotificationSequence) : World :=
  { w with log := w.log ++ [NotificationCall.notification_message seq] }

/-- Send a sequence and wait for its end. -/
def notification_message_block (w : World) (seq : NotificationSequence) : World :=
  { w with log := w.log ++ [NotificationCall.notification_message_block seq] }

/-- The body of the obstacle loop of `f4s_game_process_game_step` for index
`i`. The flag is `true` when the body executed `return`. -/
def obstacle_body (w : World) (i : Nat) : World × Bool :=
  let w1 : World := { w with st := { w.st with
      obstacle_y := w.st.obstacle_y.set i
        (int_add (w.st.obstacle_y.get i) w.st.obstacle_speed) } }
  let w2 : World :=
    if w1.st.obstacle_y.get i > 64 then
      notification_message (f4s_game_reset_obstacle w1 i)
        NotificationSequence.sequence_obstacle
    else w1
  if w2.st.obstacle_y.get i + 10 ≥ PLAYER_Y ∧ w2.st.obstacle_x.get i = w2.st.player_x then
    (notification_message_block { w2 with st := { w2.st with game_over := true } }
      NotificationSequence.sequence_fail, true)
  else (w2, false)

/-- The obstacle loop, `n` indices starting at `i`. The flag is `true` when
an iteration executed `return`. -/
def obstacle_loop : Nat → Nat → World → World × Bool
  | 0, _, w => (w, false)
  | n + 1, i, w =>
    match obstacle_body w i with
    | (w1, true) => (w1, true)
    | (w1, false) => obstacle_loop n (i + 1) w1

/-- The two difficulty updates at the end of `f4s_game_process_game_step`. -/
def difficulty_update (s : Flip4SpeedState) : Flip4SpeedState :=
  let s1 : Flip4SpeedState :=
    if s.score % 50 = 0 ∧ s.obstacle_speed < MAX_SPEED then
      { s with obstacle_speed := s.obstacle_speed + SPEED_INCREMENT }
    else s
  if s1.score % 100 = 0 ∧ s1.game_delay > MIN_DELAY then
    { s1 with game_delay := s1.game_delay - 5 }
  else s1

/-- The first two statements of a tick: the road scrolls, the score counts. -/
def scroll_and_count (w : World) : World :=
  { w with st := { w.st with
      road_offset := int_rem (int_add w.st.road_offset 2) 12
      score := uint_incr w.st.score } }

/-- The function `f4s_game_process_game_step`: one tick. -/
def f4s_game_process_game_step (w : World) : World :=
  if !w.st.game_over then
    match obstacle_loop OBSTACLE_COUNT 0 (scroll_and_count w) with
    | (w2, true) => w2
    | (w2, false) => { w2 with st := difficulty_update w2.st }
  else w

/-- The input part of one iteration of the loop of `f4s_game_app`: the world
after it and the new value of `processing`. `none` is a wait on the queue that
timed out. -/
def apply_event (w : World) (ev : Option Flip4SpeedEvent) : World × Bool :=
  match ev with
  | none => (w, true)
  | some event =>
    if event.type = EventType.EventTypeKey then
      if event.input.type = InputType.InputTypePress then
        match event.input.key with
        | InputKey.InputKeyUp => (w, true)
        | InputKey.InputKeyDown => (w, true)
        | InputKey.InputKeyRight =>
          if w.st.player_x < ROAD_RIGHT then
            ({ w with st := { w.st with player_x := w.st.player_x + 16 } }, true)
          else (w, true)
        | InputKey.InputKeyLeft =>
          if w.st.player_x > ROAD_LEFT then
            ({ w with st := { w.st with player_x := w.st.player_x - 16 } }, true)
          else (w, true)
        | InputKey.InputKeyOk =>
          if w.st.game_over then (f4s_game_init_game w, true) else (w, true)
        | InputKey.InputKeyBack => (w, false)
        | InputKey.InputKeyOther => (w, true)
      else (w, true)
    else (w, true)

/-- One iteration of the loop of `f4s_game_app`: the input part, then one
tick. The flag is the new value of `processing`. -/
def loop_iteration (w : World) (ev : Option Flip4SpeedEvent) : World × Bool :=
  let (w1, processing) := apply_event w ev
  (f4s_game_process_game_step w1, processing)

/-- The loop of `f4s_game_app` over the successive outcomes of the wait on
the queue; it ends with the iteration that clears `processing`. -/
def game_loop (w : World) : List (Option Flip4SpeedEvent) → World
  | [] => w
  | ev :: rest =>
    match loop_iteration w ev with
    | (w1, true) => game_loop w1 rest
    | (w1, false) => w1

/-- The state of `f4s_game_app` when it enters its loop: `f4s_game_init_game`
on the freshly allocated state `s0`, with `rnd` the future results of
`rand()`. -/
def app_start (s0 : Flip4SpeedState) (rnd : Nat → Nat) : World :=
  f4s_game_init_game { st := s0, rnd := rnd, log := [] }

/-- The world after the events `evs` have been through the loop of
`f4s_game_app`. -/
def f4s_game_app (s0 : Flip4SpeedState) (rnd : Nat → Nat)
    (evs : List (Option Flip4SpeedEvent)) : World :=
  game_loop (app_start s0 rnd) evs

/-- The world after `n` ticks. -/
def ticks : Nat → World → World
  | 0, w => w
  | n + 1, w => ticks n (f4s_game_process_game_step w)

/-! ## The mutex and the accesses to the state, in program order -/

/-- The fields of `Flip4SpeedState` that hold the game state (the mutex handle
is not one of them). -/
inductive StateField where
  | road_offset
  | player_x
  | obstacle_x
  | obstacle_y
  | score
  | game_over
  | obstacle_speed
  | game_delay
deriving DecidableEq, Repr

/-- What `f4s_game_app` and `f4s_game_render_callback` do to the mutex and to
the game state. `read` and `write` are accesses written in the body of the
function itself; the two calls stand for all the accesses of the callee, which
takes the state and does nothing to the mutex. -/
inductive Op where
  | furi_mutex_acquire
  | furi_mutex_release
  | read (f : StateField)
  | write (f : StateField)
  | call_init_game
  | call_process_game_step
deriving DecidableEq, Repr

/-- The accesses to the state made while the mutex is not held, `held` telling
whether it is held at the start. -/
def unguarded : Bool → List Op → List Op
  | _, [] => []
  | _, Op.furi_mutex_acquire :: rest => unguarded true rest
  | _, Op.furi_mutex_release :: rest => unguarded false rest
  | held, op :: rest =>
    if held then unguarded held rest else op :: unguarded held rest

/-- Whether the mutex is held after the operations, `held` telling whether it
is held at the start. -/
def held_after : Bool → List Op → Bool
  | held, [] => held
  | _, Op.furi_mutex_acquire :: rest => held_after true rest
  | _, Op.furi_mutex_release :: rest => held_after false rest
  | held, _ :: rest => held_after held rest

/-- The operations of `f4s_game_render_callback`: the mutex is taken, the
fields are read for the five road marks, the player, the two obstacles, the
score and the banner, the mutex is given back. The obstacle loop is written
out for its two indices. -/
def f4s_game_render_callback_ops (s : Flip4SpeedState) : List Op :=
  [Op.furi_mutex_acquire] ++
  List.replicate 5 (Op.read StateField.road_offset) ++
  [Op.read StateField.player_x] ++
  [Op.read StateField.obstacle_x, Op.read StateField.obstacle_y,
   Op.read StateField.obstacle_x, Op.read StateField.obstacle_y] ++
  [Op.read StateField.score, Op.read StateField.game_over] ++
  (if s.game_over then [Op.read StateField.score] else []) ++
  [Op.furi_mutex_release]

/-- The operations of the input part of an iteration of the loop of
`f4s_game_app`, which follow the branches of `apply_event`. -/
def apply_event_ops (w : World) (ev : Option Flip4SpeedEvent) : List Op :=
  match ev with
  | none => []
  | some event =>
    if event.type = EventType.EventTypeKey then
      if event.input.type = InputType.InputTypePress then
        match event.input.key with
        | InputKey.InputKeyRight =>
          [Op.read StateField.player_x] ++
          (if w.st.player_x < ROAD_RIGHT then
            [Op.read StateField.player_x, Op.write StateField.player_x] else [])
        | InputKey.InputKeyLeft =>
          [Op.read StateField.player_x] ++
          (if w.st.player_x > ROAD_LEFT then
            [Op.read StateField.player_x, Op.write StateField.player_x] else [])
        | InputKey.InputKeyOk =>
          [Op.read StateField.game_over] ++
          (if w.st.game_over then [Op.call_init_game] else [])
        | _ => []
      else []
    else []

/-- The operations of one iteration of the loop of `f4s_game_app`: after the
wait on the queue the mutex is taken, the input part and the tick run, the
mutex is given back, the view port is updated, and `game_delay` is read for
`furi_delay_ms`. -/
def loop_iteration_ops (w : World) (ev : Option Flip4SpeedEvent) : List Op :=
  [Op.furi_mutex_acquire] ++ apply_event_ops w ev ++
  [Op.call_process_game_step, Op.furi_mutex_release, Op.read StateField.game_delay]

/-- The operations of the loop of `f4s_game_app`, iteration after iteration as
in `game_loop`. -/
def game_loop_ops (w : World) : List (Option Flip4SpeedEvent) → List Op
  | [] => []
  | ev :: rest =>
    loop_iteration_ops w ev ++
    match loop_iteration w ev with
    | (w1, true) => game_loop_ops w1 rest
    | (_, false) => []

/-- The operations of `f4s_game_app`: `f4s_game_init_game` on the allocated
state, before the mutex is allocated, then the loop. What follows the loop
frees the mutex and the state and reads no field of the game. -/
def f4s_game_app_ops (s0 : Flip4SpeedState) (rnd : Nat → Nat)
    (evs : List (Option Flip4SpeedEvent)) : List Op :=
  [Op.call_init_game] ++ game_loop_ops (app_start s0 rnd) evs

/-! ## Predicates used by the proofs -/

/-- The score, speed and delay of a game that has run `k` ticks. -/
def progress (k : Nat) (s : Flip4SpeedState) : Prop :=
  s.score = k % 4294967296 ∧
  s.obstacle_speed = min 6 (2 + ((k / 50 : Nat) : Int)) ∧
  s.game_delay = 33 - 5 * min 4 ((k / 100 : Nat) : Int)

/-- The player in the centre lane, both obstacles in the left lane, and a
`rand()` that keeps returning 0. -/
def never_hit (w : World) : Prop :=
  w.st.game_over = false ∧ w.st.player_x = 56 ∧ w.st.obstacle_x.e0 = 40 ∧
    w.st.obstacle_x.e1 = 40 ∧ ∀ n, w.rnd n = 0

/-- The ranges of the speed and of the obstacles in a game in progress. -/
def in_range (s : Flip4SpeedState) : Prop :=
  (2 ≤ s.obstacle_speed ∧ s.obstacle_speed ≤ 6) ∧
  (s.obstacle_x.e0 = 40 ∨ s.obstacle_x.e0 = 56 ∨ s.obstacle_x.e0 = 72) ∧
  (s.obstacle_x.e1 = 40 ∨ s.obstacle_x.e1 = 56 ∨ s.obstacle_x.e1 = 72) ∧
  (-10 ≤ s.obstacle_y.e0 ∧ s.obstacle_y.e0 ≤ 64) ∧
  (-10 ≤ s.obstacle_y.e1 ∧ s.obstacle_y.e1 ≤ 64)

/-! ## Sample data -/

/-- A state in the middle of a game: centre lane, obstacles in the left lane. -/
def sample_state : Flip4SpeedState :=
  { road_offset := 0, player_x := 56, obstacle_x := ⟨40, 40⟩, obstacle_y := ⟨-10, -10⟩,
    score := 0, game_over := false, obstacle_speed := 2, game_delay := 33 }

/-- The stream on which `rand()` always returns 0. -/
def zero_rand : Nat → Nat := fun _ => 0

/-- The queue element of a press of key `k`. -/
def key_press (k : InputKey) : Flip4SpeedEvent :=
  { type := EventType.EventTypeKey, input := { type := InputType.InputTypePress, key := k } }

/-- A running game whose obstacle 0 is about to reach the player. -/
def hit_state : Flip4SpeedState :=
  { road_offset := 0, player_x := 56, obstacle_x := ⟨56, 40⟩, obstacle_y := ⟨50, 50⟩,
    score := 7, game_over := false, obstacle_speed := 2, game_delay := 33 }

/-- A game that has ended on a collision with obstacle 0. -/
def over_state : Flip4SpeedState :=
  { road_offset := 4, player_x := 56, obstacle_x := ⟨56, 40⟩, obstacle_y := ⟨52, 50⟩,
    score := 31, game_over := true, obstacle_speed := 2, game_delay := 33 }

/-- A running game whose score is the largest `unsigned int`. -/
def max_score_state : Flip4SpeedState :=
  { road_offset := 0, player_x := 56, obstacle_x := ⟨40, 40⟩, obstacle_y := ⟨0, 0⟩,
    score := 4294967295, game_over := false, obstacle_speed := 6, game_delay := 13 }

/-- The player at the right edge of the road. -/
def right_edge_state : Flip4SpeedState :=
  { sample_state with player_x := 72 }

/-- A running game whose two obstacles are about to leave the screen. -/
def recycle_state : Flip4SpeedState :=
  { road_offset := 6, player_x := 56, obstacle_x := ⟨56, 72⟩, obstacle_y := ⟨63, 63⟩,
    score := 36, game_over := false, obstacle_speed := 2, game_delay := 33 }

/-- A running game whose obstacle 0 is about to reach the player while the
score is about to reach 100. -/
def hit_at_threshold_state : Flip4SpeedState :=
  { road_offset := 10, player_x := 56, obstacle_x := ⟨56, 40⟩, obstacle_y := ⟨50, 50⟩,
    score := 99, game_over := false, obstacle_speed := 2, game_delay := 33 }

/-- A running game one tick before the score reaches 100, no obstacle in the
player's lane. -/
def threshold_state : Flip4SpeedState :=
  { road_offset := 10, player_x := 56, obstacle_x := ⟨40, 72⟩, obstacle_y := ⟨20, 20⟩,
    score := 99, game_over := false, obstacle_speed := 2, game_delay := 33 }

/-- Freshly allocated memory whose `road_offset` happens to hold -5. -/
def stale_state : Flip4SpeedState :=
  { road_offset := -5, player_x := 0, obstacle_x := ⟨0, 0⟩, obstacle_y := ⟨0, 0⟩,
    score := 0, game_over := false, obstacle_speed := 0, game_delay := 0 }

/-! ## Arrays and machine arithmetic -/

@[simp]
theorem IntArray2.get_zero (a : IntArray2) : a.get 0 = a.e0 := rfl
@[simp]
theorem IntArray2.get_one (a : IntArray2) : a.get 1 = a.e1 := rfl
@[simp]
theorem IntArray2.set_zero (a : IntArray2) (v : Int) :
    a.set 0 v = { a with e0 := v } := rfl
@[simp]
theorem IntArray2.set_one (a : IntArray2) (v : Int) :
    a.set 1 v = { a with e1 := v } := rfl

theorem IntArray2.get_set_self (a : IntArray2) (i : Nat) (v : Int) :
    (a.set i v).get i = v := by
  unfold IntArray2.get IntArray2.set
  by_cases h : i = 0 <;> simp [h]

theorem IntArray2.set_set (a : IntArray2) (i : Nat) (u v : Int) :
    (a.set i u).set i v = a.set i v := by
  unfold IntArray2.set
  by_cases h : i = 0 <;> simp [h]

theorem wrap_int_of_range (v : Int) (h1 : -2147483648 ≤ v) (h2 : v < 2147483648) :
    wrap_int v = v := by
  unfold wrap_int; omega

theorem int_rem_three_of_nat (r : Nat) :
    int_rem (r : Int) 3 = 0 ∨ int_rem (r : Int) 3 = 1 ∨ int_rem (r : Int) 3 = 2 := by
  have h : int_rem (r : Int) 3 = (r : Int) % 3 := by
    unfold int_rem
    exact Int.tmod_eq_emod (Int.ofNat_nonneg r) (by decide)
  rw [h]; omega

/-! ## The obstacle loop -/

/-- The three outcomes of the body of the obstacle loop: the obstacle is
recycled, or it hits the player, or it has only moved. -/
theorem obstacle_body_eq (w : World) (i : Nat) :
    obstacle_body w i =
      if 64 < int_add (w.st.obstacle_y.get i) w.st.obstacle_speed then
        ({ st := { w.st with
              obstacle_x := w.st.obstacle_x.set i (ROAD_LEFT + int_rem (w.rnd 0) 3 * 16)
              obstacle_y := w.st.obstacle_y.set i (-10) },
           rnd := fun n => w.rnd (n + 1),
           log := w.log ++ [NotificationCall.notification_message
                    NotificationSequence.sequence_obstacle] }, false)
      else if 54 ≤ int_add (w.st.obstacle_y.get i) w.st.obstacle_speed + 10 ∧
          w.st.obstacle_x.get i = w.st.player_x then
        ({ st := { w.st with
              obstacle_y := w.st.obstacle_y.set i
                (int_add (w.st.obstacle_y.get i) w.st.obstacle_speed)
              game_over := true },
           rnd := w.rnd,
           log := w.log ++ [NotificationCall.notification_message_block
                    NotificationSequence.sequence_fail] }, true)
      else
        ({ w with st := { w.st with
              obstacle_y := w.st.obstacle_y.set i
                (int_add (w.st.obstacle_y.get i) w.st.obstacle_speed) } }, false) := by
  unfold obstacle_body
  by_cases h1 : 64 < int_add (w.st.obstacle_y.get i) w.st.obstacle_speed
  · simp [h1, IntArray2.get_set_self, IntArray2.set_set, f4s_game_reset_obstacle, rand,
      notification_message]
  · by_cases h2 : 54 ≤ int_add (w.st.obstacle_y.get i) w.st.obstacle_speed + 10 ∧
        w.st.obstacle_x.get i = w.st.player_x
    · simp [h1, h2, IntArray2.get_set_self, notification_message_block]
    · simp [h1, h2, IntArray2.get_set_self]

theorem obstacle_body_flag (w : World) (i : Nat) :
    (obstacle_body w i).2 = true ↔
      (int_add (w.st.obstacle_y.get i) w.st.obstacle_speed ≤ 64 ∧
        54 ≤ int_add (w.st.obstacle_y.get i) w.st.obstacle_speed + 10 ∧
        w.st.obstacle_x.get i = w.st.player_x) := by
  rw [obstacle_body_eq]
  split_ifs with h1 h2
  · simp; omega
  · simp; exact ⟨by omega, h2.1, h2.2⟩
  · simp; intro _ h3 h4; exact h2 ⟨h3, h4⟩

/-! ### What one pass through the body leaves alone -/

@[simp]
theorem obstacle_body_player_x (w : World) (i : Nat) :
    (obstacle_body w i).1.st.player_x = w.st.player_x := by
  rw [obstacle_body_eq]; split_ifs <;> rfl

@[simp]
theorem obstacle_body_road_offset (w : World) (i : Nat) :
    (obstacle_body w i).1.st.road_offset = w.st.road_offset := by
  rw [obstacle_body_eq]; split_ifs <;> rfl

@[simp]
theorem obstacle_body_score (w : World) (i : Nat) :
    (obstacle_body w i).1.st.score = w.st.score := by
  rw [obstacle_body_eq]; split_ifs <;> rfl

@[simp]
theorem obstacle_body_obstacle_speed (w : World) (i : Nat) :
    (obstacle_body w i).1.st.obstacle_speed = w.st.obstacle_speed := by
  rw [obstacle_body_eq]; split_ifs <;> rfl

@[simp]
theorem obstacle_body_game_delay (w : World) (i : Nat) :
    (obstacle_body w i).1.st.game_delay = w.st.game_delay := by
  rw [obstacle_body_eq]; split_ifs <;> rfl

theorem obstacle_body_game_over (w : World) (i : Nat) :
    (obstacle_body w i).1.st.game_over = (w.st.game_over || (obstacle_body w i).2) := by
  rw [obstacle_body_eq]; split_ifs <;> simp

@[simp]
theorem obstacle_body_zero_x1 (w : World) :
    (obstacle_body w 0).1.st.obstacle_x.e1 = w.st.obstacle_x.e1 := by
  rw [obstacle_body_eq]; split_ifs <;> rfl

@[simp]
theorem obstacle_body_zero_y1 (w : World) :
    (obstacle_body w 0).1.st.obstacle_y.e1 = w.st.obstacle_y.e1 := by
  rw [obstacle_body_eq]; split_ifs <;> rfl

@[simp]
theorem obstacle_body_one_x0 (w : World) :
    (obstacle_body w 1).1.st.obstacle_x.e0 = w.st.obstacle_x.e0 := by
  rw [obstacle_body_eq]; split_ifs <;> rfl

@[simp]
theorem obstacle_body_one_y0 (w : World) :
    (obstacle_body w 1).1.st.obstacle_y.e0 = w.st.obstacle_y.e0 := by
  rw [obstacle_body_eq]; split_ifs <;> rfl

/-! ### What one pass through the body does to its own obstacle -/

theorem obstacle_body_y_self (w : World) (i : Nat) :
    (obstacle_body w i).1.st.obstacle_y.get i =
      if 64 < int_add (w.st.obstacle_y.get i) w.st.obstacle_speed then -10
      else int_add (w.st.obstacle_y.get i) w.st.obstacle_speed := by
  rw [obstacle_body_eq]; split_ifs <;> simp [IntArray2.get_set_self]

theorem obstacle_body_x_self (w : World) (i : Nat) :
    (obstacle_body w i).1.st.obstacle_x.get i =
      if 64 < int_add (w.st.obstacle_y.get i) w.st.obstacle_speed then
        ROAD_LEFT + int_rem (w.rnd 0) 3 * 16
      else w.st.obstacle_x.get i := by
  rw [obstacle_body_eq]; split_ifs <;> simp [IntArray2.get_set_self]

/-! ### The other parts of a tick -/

@[simp]
theorem scroll_and_count_player_x (w : World) :
    (scroll_and_count w).st.player_x = w.st.player_x := rfl
@[simp]
theorem scroll_and_count_obstacle_x (w : World) :
    (scroll_and_count w).st.obstacle_x = w.st.obstacle_x := rfl
@[simp]
theorem scroll_and_count_obstacle_y (w : World) :
    (scroll_and_count w).st.obstacle_y = w.st.obstacle_y := rfl
@[simp]
theorem scroll_and_count_game_over (w : World) :
    (scroll_and_count w).st.game_over = w.st.game_over := rfl
@[simp]
theorem scroll_and_count_obstacle_speed (w : World) :
    (scroll_and_count w).st.obstacle_speed = w.st.obstacle_speed := rfl
@[simp]
theorem scroll_and_count_game_delay (w : World) :
    (scroll_and_count w).st.game_delay = w.st.game_delay := rfl
@[simp]
theorem scroll_and_count_score (w : World) :
    (scroll_and_count w).st.score = uint_incr w.st.score := rfl
@[simp]
theorem scroll_and_count_road_offset (w : World) :
    (scroll_and_count w).st.road_offset = int_rem (int_add w.st.road_offset 2) 12 := rfl
@[simp]
theorem scroll_and_count_rnd (w : World) :
    (scroll_and_count w).rnd = w.rnd := rfl
@[simp]
theorem scroll_and_count_log (w : World) :
    (scroll_and_count w).log = w.log := rfl

@[simp]
theorem difficulty_update_road_offset (s : Flip4SpeedState) :
    (difficulty_update s).road_offset = s.road_offset := by
  simp only [difficulty_update]; split_ifs <;> rfl
@[simp]
theorem difficulty_update_player_x (s : Flip4SpeedState) :
    (difficulty_update s).player_x = s.player_x := by
  simp only [difficulty_update]; split_ifs <;> rfl
@[simp]
theorem difficulty_update_obstacle_x (s : Flip4SpeedState) :
    (difficulty_update s).obstacle_x = s.obstacle_x := by
  simp only [difficulty_update]; split_ifs <;> rfl
@[simp]
theorem difficulty_update_obstacle_y (s : Flip4SpeedState) :
    (difficulty_update s).obstacle_y = s.obstacle_y := by
  simp only [difficulty_update]; split_ifs <;> rfl
@[simp]
theorem difficulty_update_score (s : Flip4SpeedState) :
    (difficulty_update s).score = s.score := by
  simp only [difficulty_update]; split_ifs <;> rfl
@[simp]
theorem difficulty_update_game_over (s : Flip4SpeedState) :
    (difficulty_update s).game_over = s.game_over := by
  simp only [difficulty_update]; split_ifs <;> rfl

theorem difficulty_update_obstacle_speed (s : Flip4SpeedState) :
    (difficulty_update s).obstacle_speed =
      if s.score % 50 = 0 ∧ s.obstacle_speed < 6 then s.obstacle_speed + 1
      else s.obstacle_speed := by
  simp only [difficulty_update]; split_ifs <;> simp_all

theorem difficulty_update_game_delay (s : Flip4SpeedState) :
    (difficulty_update s).game_delay =
      if s.score % 100 = 0 ∧ 16 < s.game_delay then s.game_delay - 5
      else s.game_delay := by
  simp only [difficulty_update]; split_ifs <;> simp_all

/-- The obstacle loop of a tick, in terms of its two passes through the body. -/
theorem obstacle_loop_two (w : World) :
    obstacle_loop OBSTACLE_COUNT 0 w =
      if (obstacle_body w 0).2 = true then ((obstacle_body w 0).1, true)
      else if (obstacle_body (obstacle_body w 0).1 1).2 = true then
        ((obstacle_body (obstacle_body w 0).1 1).1, true)
      else ((obstacle_body (obstacle_body w 0).1 1).1, false) := by
  simp only [obstacle_loop, OBSTACLE_COUNT]
  generalize obstacle_body w 0 = b0
  obtain ⟨wa, fa⟩ := b0
  cases fa
  · simp only []
    generalize obstacle_body wa 1 = b1
    obtain ⟨wb, fb⟩ := b1
    cases fb <;> simp
  · simp

/-- The tick of a running game, in terms of the two passes through the body
of the obstacle loop. -/
theorem step_running_eq (w : World) (h : w.st.game_over = false) :
    f4s_game_process_game_step w =
      if (obstacle_body (scroll_and_count w) 0).2 = true then
        (obstacle_body (scroll_and_count w) 0).1
      else if (obstacle_body (obstacle_body (scroll_and_count w) 0).1 1).2 = true then
        (obstacle_body (obstacle_body (scroll_and_count w) 0).1 1).1
      else
        { (obstacle_body (obstacle_body (scroll_and_count w) 0).1 1).1 with
          st := difficulty_update
            (obstacle_body (obstacle_body (scroll_and_count w) 0).1 1).1.st } := by
  unfold f4s_game_process_game_step
  rw [h, obstacle_loop_two]
  split_ifs <;> simp_all

theorem step_game_over_eq (w : World) (h : w.st.game_over = true) :
    f4s_game_process_game_step w = w := by
  simp [f4s_game_process_game_step, h]

theorem collision_iff (w : World) (h : w.st.game_over = false) :
    ((f4s_game_process_game_step w).st.game_over = true ↔
      ∃ i, i < OBSTACLE_COUNT ∧ w.st.obstacle_x.get i = w.st.player_x ∧
        int_add (w.st.obstacle_y.get i) w.st.obstacle_speed ≤ 64 ∧
        int_add (w.st.obstacle_y.get i) w.st.obstacle_speed + 10 ≥ 54) := by
  have hex : ∀ p : Nat → Prop, (∃ i, i < OBSTACLE_COUNT ∧ p i) ↔ (p 0 ∨ p 1) := by
    intro p
    constructor
    · rintro ⟨i, hi, hp⟩
      simp at hi
      interval_cases i
      · exact Or.inl hp
      · exact Or.inr hp
    · rintro (hp | hp)
      · exact ⟨0, by simp, hp⟩
      · exact ⟨1, by simp, hp⟩
  rw [hex, step_running_eq w h]
  have f0 := obstacle_body_flag (scroll_and_count w) 0
  have f1 := obstacle_body_flag (obstacle_body (scroll_and_count w) 0).1 1
  simp only [IntArray2.get_zero, IntArray2.get_one, obstacle_body_zero_x1, obstacle_body_zero_y1,
    obstacle_body_player_x, obstacle_body_obstacle_speed, scroll_and_count_player_x,
    scroll_and_count_obstacle_x, scroll_and_count_obstacle_y, scroll_and_count_obstacle_speed]
    at f0 f1 ⊢
  split_ifs with g0 g1
  · simp only [obstacle_body_game_over, g0, Bool.or_true, true_iff]
    left; have := f0.1 g0; omega
  · simp only [obstacle_body_game_over, g1, Bool.or_true, true_iff]
    right; have := f1.1 g1; omega
  · simp only [difficulty_update_game_over, obstacle_body_game_over, scroll_and_count_game_over, h]
    simp only [Bool.not_eq_true] at g0 g1
    simp only [g0, g1, Bool.or_false, Bool.false_eq_true, false_iff]
    rintro (hc | hc)
    · have := f0.2 ⟨hc.2.1, by omega, hc.1⟩
      simp [g0] at this
    · have := f1.2 ⟨hc.2.1, by omega, hc.1⟩
      simp [g1] at this

@[simp]
theorem obstacle_body_rnd_zero (w : World) (i : Nat) (hz : ∀ n, w.rnd n = 0) :
    ∀ n, (obstacle_body w i).1.rnd n = 0 := by
  rw [obstacle_body_eq]; split_ifs <;> simp [hz]

/-! ### Field by field: one tick -/

theorem step_player_x (w : World) :
    (f4s_game_process_game_step w).st.player_x = w.st.player_x := by
  cases h : w.st.game_over
  · rw [step_running_eq w h]; split_ifs <;> simp
  · rw [step_game_over_eq w h]

theorem step_score (w : World) (h : w.st.game_over = false) :
    (f4s_game_process_game_step w).st.score = uint_incr w.st.score := by
  rw [step_running_eq w h]; split_ifs <;> simp

theorem step_obstacle_speed (w : World) :
    (f4s_game_process_game_step w).st.obstacle_speed = w.st.obstacle_speed ∨
      (w.st.obstacle_speed < 6 ∧
        (f4s_game_process_game_step w).st.obstacle_speed = w.st.obstacle_speed + 1) := by
  cases h : w.st.game_over
  · rw [step_running_eq w h]
    split_ifs
    · simp
    · simp
    · simp only [difficulty_update_obstacle_speed]
      split_ifs with hc
      · right; simpa using hc.2
      · left; simp
  · rw [step_game_over_eq w h]; simp

theorem step_game_delay (w : World) :
    (f4s_game_process_game_step w).st.game_delay = w.st.game_delay ∨
      (16 < w.st.game_delay ∧
        (f4s_game_process_game_step w).st.game_delay = w.st.game_delay - 5) := by
  cases h : w.st.game_over
  · rw [step_running_eq w h]
    split_ifs
    · simp
    · simp
    · simp only [difficulty_update_game_delay]
      split_ifs with hc
      · right; simpa using hc.2
      · left; simp
  · rw [step_game_over_eq w h]; simp

/-- A tick that ends with the game still running went through both
difficulty tests. -/
theorem step_still_running (w : World)
    (h' : (f4s_game_process_game_step w).st.game_over = false) :
    w.st.game_over = false ∧
    (f4s_game_process_game_step w).st.score = uint_incr w.st.score ∧
    (f4s_game_process_game_step w).st.obstacle_speed =
      (if uint_incr w.st.score % 50 = 0 ∧ w.st.obstacle_speed < 6 then w.st.obstacle_speed + 1
        else w.st.obstacle_speed) ∧
    (f4s_game_process_game_step w).st.game_delay =
      (if uint_incr w.st.score % 100 = 0 ∧ 16 < w.st.game_delay then w.st.game_delay - 5
        else w.st.game_delay) := by
  cases h : w.st.game_over
  · refine ⟨rfl, ?_⟩
    have g0 : ¬ (obstacle_body (scroll_and_count w) 0).2 = true := by
      intro g0
      rw [step_running_eq w h, if_pos g0] at h'
      simp [obstacle_body_game_over, g0] at h'
    have g1 : ¬ (obstacle_body (obstacle_body (scroll_and_count w) 0).1 1).2 = true := by
      intro g1
      rw [step_running_eq w h, if_neg g0, if_pos g1] at h'
      simp [obstacle_body_game_over, g1] at h'
    rw [step_running_eq w h, if_neg g0, if_neg g1]
    simp [difficulty_update_obstacle_speed, difficulty_update_game_delay]
  · rw [step_game_over_eq w h] at h'
    rw [h] at h'; cases h'

/-! ### Initialisation and the input part of an iteration -/

theorem init_game_eq (w : World) :
    f4s_game_init_game w =
      { st := { road_offset := w.st.road_offset
                player_x := 56
                obstacle_x := ⟨40 + int_rem (w.rnd 0) 3 * 16, 40 + int_rem (w.rnd 1) 3 * 16⟩
                obstacle_y := ⟨-10, -10⟩
                score := 0
                game_over := false
                obstacle_speed := 2
                game_delay := 33 }
        rnd := fun n => w.rnd (n + 2)
        log := w.log } := rfl

theorem loop_iteration_eq (w : World) (ev : Option Flip4SpeedEvent) :
    loop_iteration w ev =
      (f4s_game_process_game_step (apply_event w ev).1, (apply_event w ev).2) := rfl

/-- The four things the input part of an iteration can do to the world. -/
theorem apply_event_cases (w : World) (ev : Option Flip4SpeedEvent) :
    (apply_event w ev).1 = w ∨
    (w.st.player_x < 72 ∧
      (apply_event w ev).1 = { w with st := { w.st with player_x := w.st.player_x + 16 } }) ∨
    (40 < w.st.player_x ∧
      (apply_event w ev).1 = { w with st := { w.st with player_x := w.st.player_x - 16 } }) ∨
    (w.st.game_over = true ∧ (apply_event w ev).1 = f4s_game_init_game w) := by
  rcases ev with _ | ⟨ty, ity, key⟩
  · simp [apply_event]
  · cases ty <;> cases ity <;> cases key <;> simp only [apply_event] <;>
      first
        | (left; rfl)
        | (split_ifs with h <;> first | (left; rfl) | simp_all)

/-- A property kept by every iteration of the loop holds after the loop. -/
theorem game_loop_invariant (P : World → Prop)
    (hstep : ∀ w ev, P w → P (loop_iteration w ev).1)
    (evs : List (Option Flip4SpeedEvent)) : ∀ w, P w → P (game_loop w evs) := by
  induction evs with
  | nil => intro w hw; exact hw
  | cons ev rest ih =>
    intro w hw
    have h1 := hstep w ev hw
    unfold game_loop
    generalize loop_iteration w ev = r at h1
    obtain ⟨w1, b⟩ := r
    cases b
    · exact h1
    · exact ih w1 h1

theorem game_loop_timeouts (n : Nat) : ∀ w, game_loop w (List.replicate n none) = ticks n w := by
  induction n with
  | zero => intro w; rfl
  | succ n ih => intro w; simp only [List.replicate_succ, game_loop, ticks]; exact ih _

theorem ticks_succ_last (n : Nat) : ∀ w,
    ticks (n + 1) w = f4s_game_process_game_step (ticks n w) := by
  induction n with
  | zero => intro w; rfl
  | succ n ih => intro w; rw [ticks, ih]; rfl

/-! ### Runs without a collision -/

theorem progress_step (k : Nat) (w : World) (hp : progress k w.st)
    (h' : (f4s_game_process_game_step w).st.game_over = false) :
    progress (k + 1) (f4s_game_process_game_step w).st := by
  obtain ⟨_, hs, hv, hd⟩ := step_still_running w h'
  obtain ⟨p1, p2, p3⟩ := hp
  have hsc : uint_incr w.st.score = (k + 1) % 4294967296 := by
    unfold uint_incr
    simp only [UINT_MODULUS]
    omega
  rw [hsc] at hs hv hd
  unfold progress
  rw [hs, hv, hd, p2, p3]
  refine ⟨rfl, ?_, ?_⟩
  · by_cases hk : k < 400
    · have e : (k + 1) % 4294967296 = k + 1 := by omega
      rw [e]
      split_ifs with hc
      · omega
      · omega
    · split_ifs with hc
      · omega
      · omega
  · by_cases hk : k < 400
    · have e : (k + 1) % 4294967296 = k + 1 := by omega
      rw [e]
      split_ifs with hc
      · omega
      · omega
    · split_ifs with hc
      · omega
      · omega

theorem progress_ticks (n : Nat) (w : World) (hp : progress 0 w.st)
    (h' : (ticks n w).st.game_over = false) : progress n (ticks n w).st := by
  induction n with
  | zero => exact hp
  | succ n ih =>
    rw [ticks_succ_last] at h' ⊢
    exact progress_step n _ (ih (step_still_running _ h').1) h'

theorem progress_app_start (s0 : Flip4SpeedState) (rnd : Nat → Nat) :
    progress 0 (app_start s0 rnd).st := by
  simp [progress, app_start, init_game_eq]

/-! ### A run that never collides -/

theorem never_hit_step (w : World) (h : never_hit w) :
    never_hit (f4s_game_process_game_step w) := by
  obtain ⟨h1, h2, h3, h4, h5⟩ := h
  have e3 : int_rem 0 3 = 0 := by decide
  have b0x : (obstacle_body (scroll_and_count w) 0).1.st.obstacle_x.e0 = 40 := by
    have := obstacle_body_x_self (scroll_and_count w) 0
    simp only [IntArray2.get_zero] at this
    rw [this]; split_ifs <;> simp [h3, h5, e3]
  have f0 : ¬ (obstacle_body (scroll_and_count w) 0).2 = true := by
    rw [obstacle_body_flag]; simp [h2, h3]
  have b0r := obstacle_body_rnd_zero (scroll_and_count w) 0 h5
  have b1x : (obstacle_body (obstacle_body (scroll_and_count w) 0).1 1).1.st.obstacle_x.e1
      = 40 := by
    have := obstacle_body_x_self (obstacle_body (scroll_and_count w) 0).1 1
    simp only [IntArray2.get_one] at this
    rw [this]; split_ifs <;> simp [h4, b0r, e3]
  have f1 : ¬ (obstacle_body (obstacle_body (scroll_and_count w) 0).1 1).2 = true := by
    rw [obstacle_body_flag]; simp [h2, h4]
  have b1r := obstacle_body_rnd_zero (obstacle_body (scroll_and_count w) 0).1 1 b0r
  rw [step_running_eq w h1, if_neg f0, if_neg f1]
  refine ⟨?_, ?_, ?_, ?_, ?_⟩
  · simp only [Bool.not_eq_true] at f0 f1
    simp [obstacle_body_game_over, h1, f0, f1]
  · simp [h2]
  · simp [b0x]
  · simp [b1x]
  · exact b1r

theorem never_hit_ticks (n : Nat) : ∀ w, never_hit w → never_hit (ticks n w) := by
  induction n with
  | zero => intro w h; exact h
  | succ n ih => intro w h; exact ih _ (never_hit_step w h)

theorem never_hit_app_start (s0 : Flip4SpeedState) :
    never_hit (app_start s0 zero_rand) := by
  have e3 : int_rem 0 3 = 0 := by decide
  simp [never_hit, app_start, init_game_eq, zero_rand, e3]

/-! ### Further facts about a tick -/

/-- A tick never increases `game_delay`. -/
theorem step_game_delay_le (w : World) :
    (f4s_game_process_game_step w).st.game_delay ≤ w.st.game_delay := by
  rcases step_game_delay w with h | ⟨_, h⟩ <;> omega

theorem ticks_game_over_eq (n : Nat) (w : World) (h : w.st.game_over = true) :
    ticks n w = w := by
  induction n with
  | zero => rfl
  | succ n ih => rw [ticks, step_game_over_eq w h, ih]

theorem lane_of_rand (r : Nat) :
    ROAD_LEFT + int_rem (r : Int) 3 * 16 = 40 ∨ ROAD_LEFT + int_rem (r : Int) 3 * 16 = 56 ∨
      ROAD_LEFT + int_rem (r : Int) 3 * 16 = 72 := by
  simp only [ROAD_LEFT]
  rcases int_rem_three_of_nat r with h | h | h <;> rw [h] <;> simp

/-- Obstacle 0 after a tick of a running game is what the first pass through
the body of the loop made it. -/
theorem step_obstacle_zero (w : World) (h : w.st.game_over = false) :
    (f4s_game_process_game_step w).st.obstacle_x.e0 =
        (obstacle_body (scroll_and_count w) 0).1.st.obstacle_x.e0 ∧
      (f4s_game_process_game_step w).st.obstacle_y.e0 =
        (obstacle_body (scroll_and_count w) 0).1.st.obstacle_y.e0 := by
  rw [step_running_eq w h]; split_ifs <;> simp

/-- Obstacle 1 after a tick of a running game in which obstacle 0 did not hit
the player is what the second pass through the body of the loop made it. -/
theorem step_obstacle_one (w : World) (h : w.st.game_over = false)
    (g0 : ¬ (obstacle_body (scroll_and_count w) 0).2 = true) :
    (f4s_game_process_game_step w).st.obstacle_x.e1 =
        (obstacle_body (obstacle_body (scroll_and_count w) 0).1 1).1.st.obstacle_x.e1 ∧
      (f4s_game_process_game_step w).st.obstacle_y.e1 =
        (obstacle_body (obstacle_body (scroll_and_count w) 0).1 1).1.st.obstacle_y.e1 := by
  rw [step_running_eq w h, if_neg g0]; split_ifs <;> simp

theorem recycling (w : World) (h : w.st.game_over = false) (i : Nat) (hi : i < OBSTACLE_COUNT)
    (hprev : ∀ j, j < i → ¬ (w.st.obstacle_x.get j = w.st.player_x ∧
        int_add (w.st.obstacle_y.get j) w.st.obstacle_speed ≤ 64 ∧
        int_add (w.st.obstacle_y.get j) w.st.obstacle_speed + 10 ≥ 54))
    (hy : 64 < int_add (w.st.obstacle_y.get i) w.st.obstacle_speed) :
    (f4s_game_process_game_step w).st.obstacle_y.get i = -10 ∧
      ((f4s_game_process_game_step w).st.obstacle_x.get i = 40 ∨
        (f4s_game_process_game_step w).st.obstacle_x.get i = 56 ∨
        (f4s_game_process_game_step w).st.obstacle_x.get i = 72) := by
  simp only [OBSTACLE_COUNT] at hi
  interval_cases i
  · simp only [IntArray2.get_zero] at hy ⊢
    obtain ⟨hx, hy'⟩ := step_obstacle_zero w h
    have bx := obstacle_body_x_self (scroll_and_count w) 0
    have bY := obstacle_body_y_self (scroll_and_count w) 0
    simp only [IntArray2.get_zero, scroll_and_count_obstacle_y, scroll_and_count_obstacle_speed,
      if_pos hy, scroll_and_count_rnd] at bx bY
    rw [hx, hy', bx, bY]
    exact ⟨rfl, lane_of_rand _⟩
  · simp only [IntArray2.get_one] at hy ⊢
    have g0 : ¬ (obstacle_body (scroll_and_count w) 0).2 = true := by
      rw [obstacle_body_flag]
      intro hc
      refine hprev 0 (by decide) ⟨?_, ?_, ?_⟩
      · simpa using hc.2.2
      · simpa using hc.1
      · simpa using hc.2.1
    obtain ⟨hx, hy'⟩ := step_obstacle_one w h g0
    have bx := obstacle_body_x_self (obstacle_body (scroll_and_count w) 0).1 1
    have bY := obstacle_body_y_self (obstacle_body (scroll_and_count w) 0).1 1
    simp only [IntArray2.get_one, obstacle_body_zero_y1, obstacle_body_obstacle_speed,
      scroll_and_count_obstacle_y, scroll_and_count_obstacle_speed, if_pos hy] at bx bY
    rw [hx, hy', bx, bY]
    exact ⟨rfl, lane_of_rand _⟩

/-! ### Ticks with a collision, ranges, the game that is over -/

/-- The tick of a running game whose obstacle 0 hits the player. -/
theorem step_hit_zero (w : World) (h : w.st.game_over = false)
    (hc : w.st.obstacle_x.e0 = w.st.player_x ∧
      int_add w.st.obstacle_y.e0 w.st.obstacle_speed ≤ 64 ∧
      54 ≤ int_add w.st.obstacle_y.e0 w.st.obstacle_speed + 10) :
    f4s_game_process_game_step w =
      { st := { w.st with
          road_offset := int_rem (int_add w.st.road_offset 2) 12
          score := uint_incr w.st.score
          obstacle_y := { w.st.obstacle_y with
            e0 := int_add w.st.obstacle_y.e0 w.st.obstacle_speed }
          game_over := true }
        rnd := w.rnd
        log := w.log ++ [NotificationCall.notification_message_block
          NotificationSequence.sequence_fail] } := by
  have f0 : (obstacle_body (scroll_and_count w) 0).2 = true := by
    rw [obstacle_body_flag]
    exact ⟨hc.2.1, hc.2.2, hc.1⟩
  rw [step_running_eq w h, if_pos f0, obstacle_body_eq]
  have n1 : ¬ 64 < int_add w.st.obstacle_y.e0 w.st.obstacle_speed := by omega
  simp [n1, hc, scroll_and_count]

/-- A tick of a running game that ends the game leaves the speed and the
delay alone. -/
theorem step_collision_keeps (w : World) (h : w.st.game_over = false)
    (h' : (f4s_game_process_game_step w).st.game_over = true) :
    (f4s_game_process_game_step w).st.obstacle_speed = w.st.obstacle_speed ∧
      (f4s_game_process_game_step w).st.game_delay = w.st.game_delay := by
  rw [step_running_eq w h] at h' ⊢
  split_ifs at h' ⊢ with g0 g1
  · simp
  · simp
  · simp only [Bool.not_eq_true] at g0 g1
    simp [obstacle_body_game_over, h, g0, g1] at h'

/-- A tick of a running game sets `road_offset` to the C remainder by 12 of
the `int` sum `road_offset + 2`. -/
theorem step_road_offset (w : World) (h : w.st.game_over = false) :
    (f4s_game_process_game_step w).st.road_offset =
      int_rem (int_add w.st.road_offset 2) 12 := by
  rw [step_running_eq w h]; split_ifs <;> simp

/-- From a `road_offset` in `[0, 12)` a tick gives a `road_offset` in `[0, 12)`. -/
theorem step_road_offset_range (w : World)
    (h0 : 0 ≤ w.st.road_offset) (h1 : w.st.road_offset < 12) :
    0 ≤ (f4s_game_process_game_step w).st.road_offset ∧
      (f4s_game_process_game_step w).st.road_offset < 12 := by
  cases h : w.st.game_over
  · rw [step_road_offset w h]
    have e : int_add w.st.road_offset 2 = w.st.road_offset + 2 := by
      unfold int_add
      exact wrap_int_of_range _ (by omega) (by omega)
    rw [e]
    unfold int_rem
    rw [Int.tmod_eq_emod (by omega) (by decide)]
    omega
  · rw [step_game_over_eq w h]
    exact ⟨h0, h1⟩

/-- In a tick of a running game whose obstacles have the same `y`, they have
the same `y` afterwards unless obstacle 0 hit the player. -/
theorem step_lockstep (w : World) (h : w.st.game_over = false)
    (hy : w.st.obstacle_y.e0 = w.st.obstacle_y.e1) :
    (f4s_game_process_game_step w).st.obstacle_y.e0 =
        (f4s_game_process_game_step w).st.obstacle_y.e1 ∨
      (w.st.obstacle_x.e0 = w.st.player_x ∧
        int_add w.st.obstacle_y.e0 w.st.obstacle_speed ≤ 64 ∧
        54 ≤ int_add w.st.obstacle_y.e0 w.st.obstacle_speed + 10) := by
  by_cases g0 : (obstacle_body (scroll_and_count w) 0).2 = true
  · right
    have := (obstacle_body_flag (scroll_and_count w) 0).1 g0
    simpa using ⟨this.2.2, this.1, this.2.1⟩
  · left
    obtain ⟨_, a0⟩ := step_obstacle_zero w h
    obtain ⟨_, a1⟩ := step_obstacle_one w h g0
    have b0 := obstacle_body_y_self (scroll_and_count w) 0
    have b1 := obstacle_body_y_self (obstacle_body (scroll_and_count w) 0).1 1
    simp only [IntArray2.get_zero, IntArray2.get_one, obstacle_body_zero_y1,
      obstacle_body_obstacle_speed, scroll_and_count_obstacle_y,
      scroll_and_count_obstacle_speed] at b0 b1
    rw [a0, a1, b0, b1, hy]

/-- The input part of an iteration of a running game leaves `game_over` clear
and the obstacles, the speed and the score as they are. -/
theorem apply_event_running (w : World) (ev : Option Flip4SpeedEvent)
    (h : w.st.game_over = false) :
    (apply_event w ev).1.st.game_over = false ∧
      (apply_event w ev).1.st.obstacle_x = w.st.obstacle_x ∧
      (apply_event w ev).1.st.obstacle_y = w.st.obstacle_y ∧
      (apply_event w ev).1.st.obstacle_speed = w.st.obstacle_speed := by
  rcases apply_event_cases w ev with e | ⟨_, e⟩ | ⟨_, e⟩ | ⟨g, _⟩
  · rw [e]; exact ⟨h, rfl, rfl, rfl⟩
  · rw [e]; exact ⟨h, rfl, rfl, rfl⟩
  · rw [e]; exact ⟨h, rfl, rfl, rfl⟩
  · rw [h] at g; cases g

/-- In every state the loop reaches with `game_over` clear the two obstacles
have the same `y`. -/
theorem lockstep_invariant (s0 : Flip4SpeedState) (rnd : Nat → Nat)
    (evs : List (Option Flip4SpeedEvent)) :
    (f4s_game_app s0 rnd evs).st.game_over = false →
      (f4s_game_app s0 rnd evs).st.obstacle_y.e0 =
        (f4s_game_app s0 rnd evs).st.obstacle_y.e1 := by
  unfold f4s_game_app
  apply game_loop_invariant
    (fun w => w.st.game_over = false → w.st.obstacle_y.e0 = w.st.obstacle_y.e1)
  · intro w ev hw
    rw [loop_iteration_eq]
    simp only
    intro h'
    have hr := (step_still_running _ h').1
    have hy : (apply_event w ev).1.st.obstacle_y.e0 = (apply_event w ev).1.st.obstacle_y.e1 := by
      rcases apply_event_cases w ev with e | ⟨_, e⟩ | ⟨_, e⟩ | ⟨_, e⟩
      · rw [e] at hr ⊢; exact hw hr
      · rw [e] at hr ⊢; exact hw hr
      · rw [e] at hr ⊢; exact hw hr
      · rw [e, init_game_eq]
    rcases step_lockstep _ hr hy with e | hc
    · exact e
    · have := (collision_iff _ hr).2 ⟨0, by decide, by simpa using hc.1,
        by simpa using hc.2.1, by simpa using hc.2.2⟩
      rw [h'] at this; cases this
  · intro _
    simp [app_start, init_game_eq]

/-- One pass through the body of the obstacle loop keeps its obstacle in
range. -/
theorem obstacle_body_range (w : World) (i : Nat)
    (hs : 2 ≤ w.st.obstacle_speed ∧ w.st.obstacle_speed ≤ 6)
    (hx : w.st.obstacle_x.get i = 40 ∨ w.st.obstacle_x.get i = 56 ∨ w.st.obstacle_x.get i = 72)
    (hy : -10 ≤ w.st.obstacle_y.get i ∧ w.st.obstacle_y.get i ≤ 64) :
    ((obstacle_body w i).1.st.obstacle_x.get i = 40 ∨
      (obstacle_body w i).1.st.obstacle_x.get i = 56 ∨
      (obstacle_body w i).1.st.obstacle_x.get i = 72) ∧
    (-10 ≤ (obstacle_body w i).1.st.obstacle_y.get i ∧
      (obstacle_body w i).1.st.obstacle_y.get i ≤ 64) := by
  have e : int_add (w.st.obstacle_y.get i) w.st.obstacle_speed =
      w.st.obstacle_y.get i + w.st.obstacle_speed := by
    unfold int_add
    exact wrap_int_of_range _ (by omega) (by omega)
  rw [obstacle_body_x_self, obstacle_body_y_self, e]
  constructor
  · split_ifs
    · exact lane_of_rand _
    · exact hx
  · split_ifs <;> omega

/-- Obstacle 1 after a tick of a running game in which obstacle 0 hit the
player is what it was. -/
theorem step_obstacle_one_hit (w : World) (h : w.st.game_over = false)
    (g0 : (obstacle_body (scroll_and_count w) 0).2 = true) :
    (f4s_game_process_game_step w).st.obstacle_x.e1 = w.st.obstacle_x.e1 ∧
      (f4s_game_process_game_step w).st.obstacle_y.e1 = w.st.obstacle_y.e1 := by
  rw [step_running_eq w h, if_pos g0]; simp

theorem in_range_step (w : World) (hr : in_range w.st) :
    in_range (f4s_game_process_game_step w).st := by
  cases h : w.st.game_over
  · obtain ⟨hs, hx0, hx1, hy0, hy1⟩ := hr
    have b0 := obstacle_body_range (scroll_and_count w) 0 hs hx0 hy0
    simp only [IntArray2.get_zero] at b0
    obtain ⟨a0x, a0y⟩ := step_obstacle_zero w h
    refine ⟨?_, ?_, ?_, ?_, ?_⟩
    · rcases step_obstacle_speed w with e | ⟨_, e⟩ <;> omega
    · rw [a0x]; exact b0.1
    · by_cases g0 : (obstacle_body (scroll_and_count w) 0).2 = true
      · rw [(step_obstacle_one_hit w h g0).1]; exact hx1
      · rw [(step_obstacle_one w h g0).1]
        exact (obstacle_body_range (obstacle_body (scroll_and_count w) 0).1 1
          (by simpa using hs) (by simpa using hx1) (by simpa using hy1)).1
    · rw [a0y]; exact b0.2
    · by_cases g0 : (obstacle_body (scroll_and_count w) 0).2 = true
      · rw [(step_obstacle_one_hit w h g0).2]; exact hy1
      · rw [(step_obstacle_one w h g0).2]
        exact (obstacle_body_range (obstacle_body (scroll_and_count w) 0).1 1
          (by simpa using hs) (by simpa using hx1) (by simpa using hy1)).2
  · rw [step_game_over_eq w h]; exact hr

theorem in_range_apply_event (w : World) (ev : Option Flip4SpeedEvent) (hr : in_range w.st) :
    in_range (apply_event w ev).1.st := by
  rcases apply_event_cases w ev with e | ⟨_, e⟩ | ⟨_, e⟩ | ⟨_, e⟩
  · rw [e]; exact hr
  · rw [e]; exact hr
  · rw [e]; exact hr
  · rw [e, init_game_eq]
    refine ⟨by simp, ?_, ?_, by simp, by simp⟩
    · have := lane_of_rand (w.rnd 0); simpa using this
    · have := lane_of_rand (w.rnd 1); simpa using this

theorem in_range_app (s0 : Flip4SpeedState) (rnd : Nat → Nat)
    (evs : List (Option Flip4SpeedEvent)) : in_range (f4s_game_app s0 rnd evs).st := by
  unfold f4s_game_app
  apply game_loop_invariant (fun w => in_range w.st)
  · intro w ev hw
    rw [loop_iteration_eq]
    exact in_range_step _ (in_range_apply_event w ev hw)
  · unfold app_start
    rw [init_game_eq]
    refine ⟨by simp, ?_, ?_, by simp, by simp⟩
    · have := lane_of_rand (rnd 0); simpa using this
    · have := lane_of_rand (rnd 1); simpa using this

/-- The input part of an iteration of a game that is over, for an event other
than a press of Ok, changes at most `player_x`. -/
theorem apply_event_over (w : World) (ev : Option Flip4SpeedEvent)
    (hev : ev ≠ some (key_press InputKey.InputKeyOk)) :
    ∃ p : Int, (apply_event w ev).1 = { w with st := { w.st with player_x := p } } := by
  rcases ev with _ | ⟨ty, ity, key⟩
  · exact ⟨w.st.player_x, rfl⟩
  · cases ty <;> cases ity <;> cases key <;>
      first
        | exact ⟨w.st.player_x, rfl⟩
        | exact absurd rfl hev
        | (simp only [apply_event]
           split_ifs <;> exact ⟨_, rfl⟩)

/-! ### The mutex -/

theorem unguarded_append (a b : List Op) : ∀ held,
    unguarded held (a ++ b) = unguarded held a ++ unguarded (held_after held a) b := by
  induction a with
  | nil => intro held; rfl
  | cons op rest ih =>
    intro held
    cases op <;> cases held <;> simp [unguarded, held_after, ih]

theorem unguarded_held_accesses (l : List Op)
    (hl : ∀ op ∈ l, op ≠ Op.furi_mutex_acquire ∧ op ≠ Op.furi_mutex_release) :
    unguarded true l = [] ∧ held_after true l = true := by
  induction l with
  | nil => exact ⟨rfl, rfl⟩
  | cons op rest ih =>
    have h1 := hl op (List.mem_cons_self _ _)
    have h2 := ih (fun o ho => hl o (List.mem_cons_of_mem _ ho))
    cases op <;> simp_all [unguarded, held_after]

theorem held_after_append (a b : List Op) : ∀ held,
    held_after held (a ++ b) = held_after (held_after held a) b := by
  induction a with
  | nil => intro held; rfl
  | cons op rest ih =>
    intro held
    cases op <;> cases held <;> simp [held_after, ih]

theorem apply_event_ops_no_mutex (w : World) (ev : Option Flip4SpeedEvent) :
    ∀ op ∈ apply_event_ops w ev, op ≠ Op.furi_mutex_acquire ∧ op ≠ Op.furi_mutex_release := by
  rcases ev with _ | ⟨ty, ity, key⟩
  · simp [apply_event_ops]
  · cases ty <;> cases ity <;> cases key <;> simp [apply_event_ops] <;>
      (intro a _ h; rcases h with rfl | rfl <;> simp)

theorem loop_iteration_unguarded (w : World) (ev : Option Flip4SpeedEvent) (held : Bool) :
    unguarded held (loop_iteration_ops w ev) = [Op.read StateField.game_delay] ∧
      held_after held (loop_iteration_ops w ev) = false := by
  obtain ⟨h1, h2⟩ := unguarded_held_accesses _ (apply_event_ops_no_mutex w ev)
  unfold loop_iteration_ops
  rw [List.append_assoc]
  constructor
  · cases held <;> simp [unguarded, unguarded_append, h1, h2]
  · cases held <;> simp [held_after, held_after_append, h2]

theorem game_loop_unguarded (evs : List (Option Flip4SpeedEvent)) : ∀ (w : World) (held : Bool),
    ∀ op ∈ unguarded held (game_loop_ops w evs), op = Op.read StateField.game_delay := by
  induction evs with
  | nil => intro w held op hop; cases held <;> simp [game_loop_ops, unguarded] at hop
  | cons ev rest ih =>
    intro w held op hop
    obtain ⟨h1, h2⟩ := loop_iteration_unguarded w ev held
    rw [game_loop_ops, unguarded_append, h1, h2] at hop
    rcases List.mem_append.1 hop with hm | hm
    · simpa using hm
    · generalize loop_iteration w ev = r at hm
      obtain ⟨w1, b⟩ := r
      cases b
      · simp [unguarded] at hm
      · exact ih w1 false op hm

/-! ## The claims -/

/-- C1: in one tick of a running game, whatever `rand()` returns, `game_over`
is set exactly when some obstacle `i` of the two is in the player's lane and
its `y`, once `obstacle_speed` is added, is at most 64 and satisfies
`y + 10 >= 54`; so an obstacle at `y = 50` in the player's lane with speed 2
ends the game in that tick. -/
theorem C1_collision_detection (w : World) (h : w.st.game_over = false) :
    ((f4s_game_process_game_step w).st.game_over = true ↔
      ∃ i, i < OBSTACLE_COUNT ∧ w.st.obstacle_x.get i = w.st.player_x ∧
        int_add (w.st.obstacle_y.get i) w.st.obstacle_speed ≤ 64 ∧
        int_add (w.st.obstacle_y.get i) w.st.obstacle_speed + 10 ≥ 54) ∧
    (∀ i, i < OBSTACLE_COUNT → w.st.obstacle_x.get i = w.st.player_x →
      w.st.obstacle_y.get i = 50 → w.st.obstacle_speed = 2 →
      (f4s_game_process_game_step w).st.game_over = true) := by
  refine ⟨collision_iff w h, ?_⟩
  intro i hi hx hy hs
  rw [collision_iff w h]
  refine ⟨i, hi, hx, ?_⟩
  rw [hy, hs]
  decide

/-- C1, at a sample state: obstacle 0 at `y = 50` in the player's lane, speed 2. -/
theorem C1_collision_detection_witness :
    hit_state.game_over = false ∧
      (f4s_game_process_game_step ⟨hit_state, zero_rand, []⟩).st.game_over = true :=
  ⟨rfl, (C1_collision_detection ⟨hit_state, zero_rand, []⟩ rfl).2 0 (by decide) rfl rfl rfl⟩

/-- C2 fails as stated: in a game that is over, with the player in the centre
lane, an iteration with a press of Right changes the state (`player_x` becomes
72). -/
theorem C2_counterexample :
    over_state.game_over = true ∧ over_state.player_x = 56 ∧
      (loop_iteration ⟨over_state, zero_rand, []⟩
        (some (key_press InputKey.InputKeyRight))).1.st.player_x = 72 ∧
      (loop_iteration ⟨over_state, zero_rand, []⟩
        (some (key_press InputKey.InputKeyRight))).1.st ≠ over_state := by
  decide

/-- C2, amended: in a game that is over, an iteration whose event is a press
of Left, Right, Up or Down leaves every field other than `player_x` unchanged,
sends no notification and keeps the loop going; Up and Down leave `player_x`
unchanged too, Right adds 16 to it when it is below 72 and Left subtracts 16
from it when it is above 40. -/
theorem C2_input_while_over (w : World) (h : w.st.game_over = true) (k : InputKey)
    (hk : k = InputKey.InputKeyLeft ∨ k = InputKey.InputKeyRight ∨
      k = InputKey.InputKeyUp ∨ k = InputKey.InputKeyDown) :
    loop_iteration w (some (key_press k)) =
      ({ w with st := { w.st with player_x :=
          if k = InputKey.InputKeyRight ∧ w.st.player_x < ROAD_RIGHT then w.st.player_x + 16
          else if k = InputKey.InputKeyLeft ∧ w.st.player_x > ROAD_LEFT then w.st.player_x - 16
          else w.st.player_x } }, true) := by
  rw [loop_iteration_eq]
  have hw := step_game_over_eq w h
  have hp : ∀ p : Int, f4s_game_process_game_step { w with st := { w.st with player_x := p } } =
      { w with st := { w.st with player_x := p } } := fun p => step_game_over_eq _ h
  rcases hk with hk | hk | hk | hk <;> subst hk
  · by_cases g : 40 < w.st.player_x <;> simp [apply_event, key_press, g, hp, hw]
  · by_cases g : w.st.player_x < 72 <;> simp [apply_event, key_press, g, hp, hw]
  · simp [apply_event, key_press, hw]
  · simp [apply_event, key_press, hw]

/-- C2, amended, at a sample state: a press of Left in a game that is over. -/
theorem C2_input_while_over_witness :
    over_state.game_over = true ∧
      (loop_iteration ⟨over_state, zero_rand, []⟩
        (some (key_press InputKey.InputKeyLeft))).1.st = { over_state with player_x := 40 } :=
  ⟨rfl, by
    rw [C2_input_while_over ⟨over_state, zero_rand, []⟩ rfl InputKey.InputKeyLeft (Or.inl rfl)]
    decide⟩

/-- C3, at the failing input: the game started on `sample_state` with a
`rand()` that always returns 0, after 400 iterations without input, has
`game_delay = 13`, below `MIN_DELAY`. -/
theorem C3_game_delay_below_min :
    (f4s_game_app sample_state zero_rand (List.replicate 400 none)).st.game_delay = 13 ∧
      (f4s_game_app sample_state zero_rand (List.replicate 400 none)).st.game_delay
        < MIN_DELAY := by
  have h := progress_ticks 400 (app_start sample_state zero_rand)
    (progress_app_start sample_state zero_rand)
    (never_hit_ticks 400 _ (never_hit_app_start sample_state)).1
  have hd : (f4s_game_app sample_state zero_rand (List.replicate 400 none)).st.game_delay
      = 13 := by
    unfold f4s_game_app
    rw [game_loop_timeouts, h.2.2]
    decide
  rw [hd]
  exact ⟨rfl, by decide⟩

/-- C4: from the state `f4s_game_init_game` produces, after any sequence of
loop iterations (any events, Left and Right presses among them), `player_x`
is one of 40, 56, 72, hence within `[ROAD_LEFT, ROAD_RIGHT]`, and it still is
after the input part of a further iteration; a press of Right at 72 and a
press of Left at 40 leave `player_x` (and the whole state) unchanged. -/
theorem C4_lane_bounds :
    (∀ w : World, (f4s_game_init_game w).st.player_x = 56) ∧
    (∀ (s0 : Flip4SpeedState) (rnd : Nat → Nat) (evs : List (Option Flip4SpeedEvent)),
      ((f4s_game_app s0 rnd evs).st.player_x = 40 ∨
        (f4s_game_app s0 rnd evs).st.player_x = 56 ∨
        (f4s_game_app s0 rnd evs).st.player_x = 72) ∧
      ROAD_LEFT ≤ (f4s_game_app s0 rnd evs).st.player_x ∧
      (f4s_game_app s0 rnd evs).st.player_x ≤ ROAD_RIGHT ∧
      ∀ ev, ((apply_event (f4s_game_app s0 rnd evs) ev).1.st.player_x = 40 ∨
        (apply_event (f4s_game_app s0 rnd evs) ev).1.st.player_x = 56 ∨
        (apply_event (f4s_game_app s0 rnd evs) ev).1.st.player_x = 72)) ∧
    (∀ w : World, w.st.player_x = 72 →
      apply_event w (some (key_press InputKey.InputKeyRight)) = (w, true) ∧
      (loop_iteration w (some (key_press InputKey.InputKeyRight))).1.st.player_x = 72) ∧
    (∀ w : World, w.st.player_x = 40 →
      apply_event w (some (key_press InputKey.InputKeyLeft)) = (w, true) ∧
      (loop_iteration w (some (key_press InputKey.InputKeyLeft))).1.st.player_x = 40) := by
  have hev : ∀ (w : World) ev,
      (w.st.player_x = 40 ∨ w.st.player_x = 56 ∨ w.st.player_x = 72) →
      ((apply_event w ev).1.st.player_x = 40 ∨ (apply_event w ev).1.st.player_x = 56 ∨
        (apply_event w ev).1.st.player_x = 72) := by
    intro w ev hw
    rcases apply_event_cases w ev with h | ⟨g, h⟩ | ⟨g, h⟩ | ⟨g, h⟩ <;> rw [h]
    · exact hw
    · simp only; omega
    · simp only; omega
    · rw [init_game_eq]; simp
  have hinv : ∀ s0 rnd evs, ((f4s_game_app s0 rnd evs).st.player_x = 40 ∨
        (f4s_game_app s0 rnd evs).st.player_x = 56 ∨
        (f4s_game_app s0 rnd evs).st.player_x = 72) := by
    intro s0 rnd evs
    unfold f4s_game_app
    apply game_loop_invariant
      (fun w => w.st.player_x = 40 ∨ w.st.player_x = 56 ∨ w.st.player_x = 72)
    · intro w ev hw
      rw [loop_iteration_eq]
      simp only [step_player_x]
      exact hev w ev hw
    · simp [app_start, init_game_eq]
  refine ⟨fun _ => rfl, ?_, ?_, ?_⟩
  · intro s0 rnd evs
    have h := hinv s0 rnd evs
    refine ⟨h, ?_, ?_, fun ev => hev _ ev h⟩
    · simp only [ROAD_LEFT]; omega
    · simp only [ROAD_RIGHT]; omega
  · intro w hw
    have e : apply_event w (some (key_press InputKey.InputKeyRight)) = (w, true) := by
      simp [apply_event, key_press, hw]
    refine ⟨e, ?_⟩
    rw [loop_iteration_eq, e]
    simp only [step_player_x]
    exact hw
  · intro w hw
    have e : apply_event w (some (key_press InputKey.InputKeyLeft)) = (w, true) := by
      simp [apply_event, key_press, hw]
    refine ⟨e, ?_⟩
    rw [loop_iteration_eq, e]
    simp only [step_player_x]
    exact hw

/-- C4, at a sample state: a press of Right with the player at 72. -/
theorem C4_lane_bounds_witness :
    right_edge_state.player_x = 72 ∧
      (loop_iteration ⟨right_edge_state, zero_rand, []⟩
        (some (key_press InputKey.InputKeyRight))).1.st.player_x = 72 :=
  ⟨rfl, (C4_lane_bounds.2.2.1 ⟨right_edge_state, zero_rand, []⟩ rfl).2⟩

/-- C5 fails as stated: at the largest `unsigned int` the score of a running
game is not greater after a tick, it is 0. -/
theorem C5_counterexample :
    max_score_state.game_over = false ∧
      (f4s_game_process_game_step ⟨max_score_state, zero_rand, []⟩).st.score = 0 ∧
      ¬ ((f4s_game_process_game_step ⟨max_score_state, zero_rand, []⟩).st.score
          > max_score_state.score) := by
  have h := step_score ⟨max_score_state, zero_rand, []⟩ rfl
  rw [h]
  decide

/-- C5, amended: a tick of a running game whose score is below `2^32 - 1`
makes the score greater by exactly 1, collision or not (in general the new
score is the old one plus 1 modulo `2^32`); and once `game_over` is set, no
number of ticks changes the score. -/
theorem C5_score_step (w : World) :
    (w.st.game_over = false → w.st.score < 4294967295 →
      (f4s_game_process_game_step w).st.score = w.st.score + 1 ∧
      (f4s_game_process_game_step w).st.score > w.st.score) ∧
    (w.st.game_over = false →
      (f4s_game_process_game_step w).st.score = (w.st.score + 1) % 4294967296) ∧
    (w.st.game_over = true → ∀ n, (ticks n w).st.score = w.st.score) := by
  refine ⟨?_, ?_, ?_⟩
  · intro h hs
    rw [step_score w h]
    unfold uint_incr
    simp only [UINT_MODULUS]
    omega
  · intro h
    rw [step_score w h]
    rfl
  · intro h n
    rw [ticks_game_over_eq n w h]

/-- C5, amended, at a sample state whose obstacle 0 hits the player in the
tick: the score goes from 7 to 8. -/
theorem C5_score_step_witness :
    hit_state.game_over = false ∧ hit_state.score = 7 ∧
      (f4s_game_process_game_step ⟨hit_state, zero_rand, []⟩).st.game_over = true ∧
      (f4s_game_process_game_step ⟨hit_state, zero_rand, []⟩).st.score = 8 :=
  ⟨rfl, rfl, by decide,
    ((C5_score_step ⟨hit_state, zero_rand, []⟩).1 rfl (by decide)).1⟩

/-- C6: a tick of a game that is over returns the world as it was: every
field of the state is unchanged, no notification is sent and `rand()` is not
called. -/
theorem C6_tick_skipped (w : World) (h : w.st.game_over = true) :
    f4s_game_process_game_step w = w ∧
    (f4s_game_process_game_step w).st.road_offset = w.st.road_offset ∧
    (f4s_game_process_game_step w).st.player_x = w.st.player_x ∧
    (f4s_game_process_game_step w).st.obstacle_x = w.st.obstacle_x ∧
    (f4s_game_process_game_step w).st.obstacle_y = w.st.obstacle_y ∧
    (f4s_game_process_game_step w).st.score = w.st.score ∧
    (f4s_game_process_game_step w).st.game_over = w.st.game_over ∧
    (f4s_game_process_game_step w).st.obstacle_speed = w.st.obstacle_speed ∧
    (f4s_game_process_game_step w).st.game_delay = w.st.game_delay ∧
    (f4s_game_process_game_step w).log = w.log := by
  rw [step_game_over_eq w h]
  simp

/-- C6, at a sample state. -/
theorem C6_tick_skipped_witness :
    over_state.game_over = true ∧
      (f4s_game_process_game_step ⟨over_state, zero_rand, []⟩).st = over_state ∧
      (f4s_game_process_game_step ⟨over_state, zero_rand, []⟩).log = [] :=
  ⟨rfl, congrArg World.st (C6_tick_skipped ⟨over_state, zero_rand, []⟩ rfl).1,
    congrArg World.log (C6_tick_skipped ⟨over_state, zero_rand, []⟩ rfl).1⟩

/-- C7: in every state reached from `f4s_game_init_game` by loop iterations
(any events, any results of `rand()`), `obstacle_speed` is in `[2, 6]`; and a
tick never decreases `obstacle_speed`, from any state. -/
theorem C7_obstacle_speed_bounds :
    (∀ (s0 : Flip4SpeedState) (rnd : Nat → Nat) (evs : List (Option Flip4SpeedEvent)),
      2 ≤ (f4s_game_app s0 rnd evs).st.obstacle_speed ∧
      (f4s_game_app s0 rnd evs).st.obstacle_speed ≤ 6) ∧
    (∀ w : World,
      w.st.obstacle_speed ≤ (f4s_game_process_game_step w).st.obstacle_speed) := by
  constructor
  · intro s0 rnd evs
    unfold f4s_game_app
    apply game_loop_invariant
      (fun w => 2 ≤ w.st.obstacle_speed ∧ w.st.obstacle_speed ≤ 6)
    · intro w ev hw
      rw [loop_iteration_eq]
      have ha : 2 ≤ (apply_event w ev).1.st.obstacle_speed ∧
          (apply_event w ev).1.st.obstacle_speed ≤ 6 := by
        rcases apply_event_cases w ev with h | ⟨g, h⟩ | ⟨g, h⟩ | ⟨g, h⟩ <;> rw [h]
        · exact hw
        · exact hw
        · exact hw
        · rw [init_game_eq]; simp
      rcases step_obstacle_speed (apply_event w ev).1 with h | ⟨g, h⟩ <;>
        simp only at h ⊢ <;> omega
    · simp [app_start, init_game_eq]
  · intro w
    rcases step_obstacle_speed w with h | ⟨_, h⟩ <;> omega

/-- C8: in a tick of a running game, an obstacle `i` that is reached (no
obstacle of smaller index hit the player) and whose `y` plus `obstacle_speed`
exceeds 64 has `y = -10` and `x` among 40, 56, 72 after the tick, whatever
`rand()` returns; this is so for `y = 63` with speed 2; and
`f4s_game_reset_obstacle` changes nothing but the `x` and `y` of the obstacle
it is given. -/
theorem C8_recycling :
    (∀ (w : World), w.st.game_over = false → ∀ i, i < OBSTACLE_COUNT →
      (∀ j, j < i → ¬ (w.st.obstacle_x.get j = w.st.player_x ∧
        int_add (w.st.obstacle_y.get j) w.st.obstacle_speed ≤ 64 ∧
        int_add (w.st.obstacle_y.get j) w.st.obstacle_speed + 10 ≥ 54)) →
      (64 < int_add (w.st.obstacle_y.get i) w.st.obstacle_speed ∨
        (w.st.obstacle_y.get i = 63 ∧ w.st.obstacle_speed = 2)) →
      (f4s_game_process_game_step w).st.obstacle_y.get i = -10 ∧
      ((f4s_game_process_game_step w).st.obstacle_x.get i = 40 ∨
        (f4s_game_process_game_step w).st.obstacle_x.get i = 56 ∨
        (f4s_game_process_game_step w).st.obstacle_x.get i = 72)) ∧
    (∀ (w : World) (index : Nat),
      (f4s_game_reset_obstacle w index).st.road_offset = w.st.road_offset ∧
      (f4s_game_reset_obstacle w index).st.player_x = w.st.player_x ∧
      (f4s_game_reset_obstacle w index).st.score = w.st.score ∧
      (f4s_game_reset_obstacle w index).st.game_over = w.st.game_over ∧
      (f4s_game_reset_obstacle w index).st.obstacle_speed = w.st.obstacle_speed ∧
      (f4s_game_reset_obstacle w index).st.game_delay = w.st.game_delay ∧
      (f4s_game_reset_obstacle w index).log = w.log ∧
      (f4s_game_reset_obstacle w index).st.obstacle_y.get index = -10 ∧
      ∀ j, j < OBSTACLE_COUNT → index < OBSTACLE_COUNT → j ≠ index →
        (f4s_game_reset_obstacle w index).st.obstacle_x.get j = w.st.obstacle_x.get j ∧
        (f4s_game_reset_obstacle w index).st.obstacle_y.get j = w.st.obstacle_y.get j) := by
  constructor
  · intro w h i hi hprev hy
    apply recycling w h i hi hprev
    rcases hy with hy | ⟨hy, hs⟩
    · exact hy
    · rw [hy, hs]; decide
  · intro w index
    refine ⟨rfl, rfl, rfl, rfl, rfl, rfl, rfl, ?_, ?_⟩
    · simp [f4s_game_reset_obstacle, rand, IntArray2.get_set_self]
    · intro j hj hindex hne
      simp only [OBSTACLE_COUNT] at hj hindex
      interval_cases j <;> interval_cases index <;>
        first
          | (exfalso; exact hne rfl)
          | exact ⟨rfl, rfl⟩

/-- C8, at a sample state: obstacle 1 at `y = 63` with speed 2, obstacle 0
recycled before it. -/
theorem C8_recycling_witness :
    recycle_state.game_over = false ∧
      (f4s_game_process_game_step ⟨recycle_state, zero_rand, []⟩).st.obstacle_y.get 1 = -10 :=
  ⟨rfl, (C8_recycling.1 ⟨recycle_state, zero_rand, []⟩ rfl 1 (by decide)
    (by decide) (Or.inr ⟨rfl, rfl⟩)).1⟩

/-- C9: whatever the state before, `f4s_game_init_game` gives `score = 0`,
`game_over = false`, `obstacle_speed = 2`, `game_delay = 33`, `player_x = 56`
and each obstacle at `y = -10` with `x` among 40, 56, 72; two calls from
different states with the same results of `rand()` agree on all these fields;
and a second call fed the same results of `rand()` as the first gives the state
the first gave. -/
theorem C9_restart_postcondition :
    (∀ w : World,
      (f4s_game_init_game w).st.score = 0 ∧
      (f4s_game_init_game w).st.game_over = false ∧
      (f4s_game_init_game w).st.obstacle_speed = 2 ∧
      (f4s_game_init_game w).st.game_delay = 33 ∧
      (f4s_game_init_game w).st.player_x = 56 ∧
      ∀ i, i < OBSTACLE_COUNT →
        (f4s_game_init_game w).st.obstacle_y.get i = -10 ∧
        ((f4s_game_init_game w).st.obstacle_x.get i = 40 ∨
          (f4s_game_init_game w).st.obstacle_x.get i = 56 ∨
          (f4s_game_init_game w).st.obstacle_x.get i = 72)) ∧
    (∀ (s1 s2 : Flip4SpeedState) (rnd : Nat → Nat) (l1 l2 : List NotificationCall),
      (f4s_game_init_game ⟨s1, rnd, l1⟩).st.score = (f4s_game_init_game ⟨s2, rnd, l2⟩).st.score ∧
      (f4s_game_init_game ⟨s1, rnd, l1⟩).st.game_over =
        (f4s_game_init_game ⟨s2, rnd, l2⟩).st.game_over ∧
      (f4s_game_init_game ⟨s1, rnd, l1⟩).st.obstacle_speed =
        (f4s_game_init_game ⟨s2, rnd, l2⟩).st.obstacle_speed ∧
      (f4s_game_init_game ⟨s1, rnd, l1⟩).st.game_delay =
        (f4s_game_init_game ⟨s2, rnd, l2⟩).st.game_delay ∧
      (f4s_game_init_game ⟨s1, rnd, l1⟩).st.player_x =
        (f4s_game_init_game ⟨s2, rnd, l2⟩).st.player_x ∧
      (f4s_game_init_game ⟨s1, rnd, l1⟩).st.obstacle_x =
        (f4s_game_init_game ⟨s2, rnd, l2⟩).st.obstacle_x ∧
      (f4s_game_init_game ⟨s1, rnd, l1⟩).st.obstacle_y =
        (f4s_game_init_game ⟨s2, rnd, l2⟩).st.obstacle_y) ∧
    (∀ w : World,
      (f4s_game_init_game { f4s_game_init_game w with rnd := w.rnd }).st =
        (f4s_game_init_game w).st) := by
  refine ⟨?_, ?_, ?_⟩
  · intro w
    refine ⟨rfl, rfl, rfl, rfl, rfl, ?_⟩
    intro i hi
    simp only [OBSTACLE_COUNT] at hi
    rw [init_game_eq]
    interval_cases i
    · exact ⟨rfl, lane_of_rand _⟩
    · exact ⟨rfl, lane_of_rand _⟩
  · intro s1 s2 rnd l1 l2
    exact ⟨rfl, rfl, rfl, rfl, rfl, rfl, rfl⟩
  · intro w
    rfl

/-- C10 fails as stated: the run of `2^32` ticks from the start state, with a
`rand()` that always returns 0, has no collision, and its score is not `2^32`
(it is 0). -/
theorem C10_counterexample :
    (ticks 4294967296 (app_start sample_state zero_rand)).st.game_over = false ∧
      (ticks 4294967296 (app_start sample_state zero_rand)).st.score ≠ 4294967296 := by
  have hg := (never_hit_ticks 4294967296 _ (never_hit_app_start sample_state)).1
  have hp := progress_ticks 4294967296 (app_start sample_state zero_rand)
    (progress_app_start sample_state zero_rand) hg
  refine ⟨hg, ?_⟩
  rw [hp.1]
  decide

/-- C10, amended: from the state `f4s_game_init_game` produces (`player_x = 56`,
`score = 0`, `obstacle_speed = 2`, `game_delay = 33`), a run of `n` ticks
without a collision ends with `score = n mod 2^32`, which is `n` when
`n < 2^32`, and with `obstacle_speed = min 6 (2 + n / 50)`; after 49 such
ticks the score is 49 and the speed 2, after one more they are 50 and 3; and
for some results of `rand()` the run never has a collision. -/
theorem C10_difficulty_scenario (s0 : Flip4SpeedState) (rnd : Nat → Nat) :
    ((app_start s0 rnd).st.player_x = 56 ∧ (app_start s0 rnd).st.score = 0 ∧
      (app_start s0 rnd).st.obstacle_speed = 2 ∧ (app_start s0 rnd).st.game_delay = 33) ∧
    (∀ n, (ticks n (app_start s0 rnd)).st.game_over = false →
      (ticks n (app_start s0 rnd)).st.score = n % 4294967296 ∧
      (n < 4294967296 → (ticks n (app_start s0 rnd)).st.score = n) ∧
      (ticks n (app_start s0 rnd)).st.obstacle_speed = min 6 (2 + ((n / 50 : Nat) : Int))) ∧
    ((ticks 50 (app_start s0 rnd)).st.game_over = false →
      (ticks 49 (app_start s0 rnd)).st.score = 49 ∧
      (ticks 49 (app_start s0 rnd)).st.obstacle_speed = 2 ∧
      (ticks 50 (app_start s0 rnd)).st.score = 50 ∧
      (ticks 50 (app_start s0 rnd)).st.obstacle_speed = 3) ∧
    (∃ rnd' : Nat → Nat, ∀ n, (ticks n (app_start s0 rnd')).st.game_over = false) := by
  refine ⟨⟨rfl, rfl, rfl, rfl⟩, ?_, ?_, ?_⟩
  · intro n hn
    obtain ⟨p1, p2, _⟩ := progress_ticks n _ (progress_app_start s0 rnd) hn
    refine ⟨p1, ?_, p2⟩
    intro hlt
    rw [p1]
    exact Nat.mod_eq_of_lt hlt
  · intro h50
    have e : ticks 50 (app_start s0 rnd) =
        f4s_game_process_game_step (ticks 49 (app_start s0 rnd)) :=
      ticks_succ_last 49 _
    have h49 : (ticks 49 (app_start s0 rnd)).st.game_over = false := by
      rw [e] at h50
      exact (step_still_running _ h50).1
    obtain ⟨a1, a2, _⟩ := progress_ticks 49 _ (progress_app_start s0 rnd) h49
    obtain ⟨b1, b2, _⟩ := progress_ticks 50 _ (progress_app_start s0 rnd) h50
    rw [a1, a2, b1, b2]
    decide
  · exact ⟨zero_rand, fun n => (never_hit_ticks n _ (never_hit_app_start s0)).1⟩

/-- C10, amended, at the run of 50 ticks from `sample_state` with a `rand()`
that always returns 0. -/
theorem C10_difficulty_scenario_witness :
    (ticks 50 (app_start sample_state zero_rand)).st.game_over = false ∧
      (ticks 50 (app_start sample_state zero_rand)).st.score = 50 ∧
      (ticks 50 (app_start sample_state zero_rand)).st.obstacle_speed = 3 :=
  ⟨(never_hit_ticks 50 _ (never_hit_app_start sample_state)).1,
    ((C10_difficulty_scenario sample_state zero_rand).2.2.1
      (never_hit_ticks 50 _ (never_hit_app_start sample_state)).1).2.2.1,
    ((C10_difficulty_scenario sample_state zero_rand).2.2.1
      (never_hit_ticks 50 _ (never_hit_app_start sample_state)).1).2.2.2⟩

/-- C11: in a tick of a running game in which obstacle 0 hits the player,
obstacle 1 keeps its `x` and `y`, and `obstacle_speed` and `game_delay` are
unchanged whatever the incremented score is; the tick changes only
`road_offset`, `score`, the `y` of obstacle 0 and `game_over`, and sends the
failure sequence. -/
theorem C11_short_circuit (w : World) (h : w.st.game_over = false)
    (hc : w.st.obstacle_x.get 0 = w.st.player_x ∧
      int_add (w.st.obstacle_y.get 0) w.st.obstacle_speed ≤ 64 ∧
      int_add (w.st.obstacle_y.get 0) w.st.obstacle_speed + 10 ≥ 54) :
    (f4s_game_process_game_step w).st.obstacle_x.get 1 = w.st.obstacle_x.get 1 ∧
    (f4s_game_process_game_step w).st.obstacle_y.get 1 = w.st.obstacle_y.get 1 ∧
    (f4s_game_process_game_step w).st.obstacle_speed = w.st.obstacle_speed ∧
    (f4s_game_process_game_step w).st.game_delay = w.st.game_delay ∧
    (f4s_game_process_game_step w).st.player_x = w.st.player_x ∧
    (f4s_game_process_game_step w).st.game_over = true ∧
    (f4s_game_process_game_step w).st =
      { w.st with
        road_offset := int_rem (int_add w.st.road_offset 2) 12
        score := uint_incr w.st.score
        obstacle_y := w.st.obstacle_y.set 0
          (int_add (w.st.obstacle_y.get 0) w.st.obstacle_speed)
        game_over := true } ∧
    (f4s_game_process_game_step w).rnd = w.rnd ∧
    (f4s_game_process_game_step w).log =
      w.log ++ [NotificationCall.notification_message_block
        NotificationSequence.sequence_fail] := by
  simp only [IntArray2.get_zero] at hc
  rw [step_hit_zero w h ⟨hc.1, hc.2.1, hc.2.2⟩]
  simp

/-- C11, at a sample state: obstacle 0 hits the player in the tick that takes
the score from 99 to 100. -/
theorem C11_short_circuit_witness :
    hit_at_threshold_state.game_over = false ∧
      (f4s_game_process_game_step ⟨hit_at_threshold_state, zero_rand, []⟩).st =
        { hit_at_threshold_state with
          road_offset := 0, score := 100, obstacle_y := ⟨52, 50⟩, game_over := true } :=
  ⟨rfl, by
    rw [(C11_short_circuit ⟨hit_at_threshold_state, zero_rand, []⟩ rfl
      ⟨rfl, by decide, by decide⟩).2.2.2.2.2.2.1]
    decide⟩

/-- C12: the input part of an iteration whose event is a press of Ok calls
`f4s_game_init_game` exactly when `game_over` is set: with `game_over` set its
result is that of the call, with `game_over` clear it changes nothing, so the
iteration is the iteration with no event. -/
theorem C12_restart_gating (w : World) :
    (Op.call_init_game ∈ apply_event_ops w (some (key_press InputKey.InputKeyOk)) ↔
      w.st.game_over = true) ∧
    (w.st.game_over = true →
      apply_event w (some (key_press InputKey.InputKeyOk)) = (f4s_game_init_game w, true)) ∧
    (w.st.game_over = false →
      apply_event w (some (key_press InputKey.InputKeyOk)) = (w, true) ∧
      apply_event w (some (key_press InputKey.InputKeyOk)) = apply_event w none ∧
      loop_iteration w (some (key_press InputKey.InputKeyOk)) = loop_iteration w none) := by
  refine ⟨?_, ?_, ?_⟩
  · cases h : w.st.game_over <;> simp [apply_event_ops, key_press, h]
  · intro h
    simp [apply_event, key_press, h]
  · intro h
    have e : apply_event w (some (key_press InputKey.InputKeyOk)) = (w, true) := by
      simp [apply_event, key_press, h]
    refine ⟨e, e, ?_⟩
    rw [loop_iteration_eq, loop_iteration_eq, e]
    rfl

/-- C12, at two sample states: a press of Ok in a game that is over restarts
it, in a running game it changes nothing. -/
theorem C12_restart_gating_witness :
    over_state.game_over = true ∧
      (apply_event ⟨over_state, zero_rand, []⟩
        (some (key_press InputKey.InputKeyOk))).1.st.score = 0 ∧
    sample_state.game_over = false ∧
      (apply_event ⟨sample_state, zero_rand, []⟩
        (some (key_press InputKey.InputKeyOk))).1.st = sample_state :=
  ⟨rfl,
    congrArg (fun r : World × Bool => r.1.st.score)
      ((C12_restart_gating ⟨over_state, zero_rand, []⟩).2.1 rfl),
    rfl,
    congrArg (fun r : World × Bool => r.1.st)
      ((C12_restart_gating ⟨sample_state, zero_rand, []⟩).2.2 rfl).1⟩

/-- C13: an iteration clears `processing` exactly when its event is a press
of Back; the press of Back changes nothing in the world, the tick of that
iteration is executed, and the loop ends with the world that tick leaves. -/
theorem C13_cancel (w : World) (ev : Option Flip4SpeedEvent) :
    ((loop_iteration w ev).2 = false ↔ ev = some (key_press InputKey.InputKeyBack)) ∧
    apply_event w (some (key_press InputKey.InputKeyBack)) = (w, false) ∧
    loop_iteration w (some (key_press InputKey.InputKeyBack)) =
      (f4s_game_process_game_step w, false) ∧
    (∀ rest, game_loop w (some (key_press InputKey.InputKeyBack) :: rest) =
      f4s_game_process_game_step w) := by
  refine ⟨?_, rfl, rfl, fun _ => rfl⟩
  rw [loop_iteration_eq]
  rcases ev with _ | ⟨ty, ity, key⟩
  · simp [apply_event]
  · cases ty <;> cases ity <;> cases key <;> simp [apply_event, key_press] <;>
      split_ifs <;> simp

/-- C14: an iteration whose event is not a key event, or is not a press, or
is a press of Up, of Down or of a key the `switch` does not name, gives the
world and the value of `processing` of an iteration whose wait on the queue
timed out. -/
theorem C14_ignored_inputs (w : World) (e : Flip4SpeedEvent)
    (h : e.type ≠ EventType.EventTypeKey ∨ e.input.type ≠ InputType.InputTypePress ∨
      e.input.key = InputKey.InputKeyUp ∨ e.input.key = InputKey.InputKeyDown ∨
      e.input.key = InputKey.InputKeyOther) :
    apply_event w (some e) = apply_event w none ∧
      loop_iteration w (some e) = loop_iteration w none := by
  have a : apply_event w (some e) = apply_event w none := by
    obtain ⟨ty, ity, key⟩ := e
    simp only at h
    rcases h with h | h | h | h | h
    · cases ty
      · rfl
      · exact absurd rfl h
    · cases ty <;> cases ity <;> first | rfl | exact absurd rfl h
    · subst h; cases ty <;> cases ity <;> rfl
    · subst h; cases ty <;> cases ity <;> rfl
    · subst h; cases ty <;> cases ity <;> rfl
  refine ⟨a, ?_⟩
  rw [loop_iteration_eq, loop_iteration_eq, a]

/-- C14, at a sample state: a release of Right is ignored. -/
theorem C14_ignored_inputs_witness :
    (loop_iteration ⟨sample_state, zero_rand, []⟩
      (some ⟨EventType.EventTypeKey, ⟨InputType.InputTypeRelease, InputKey.InputKeyRight⟩⟩)).1.st
      = (loop_iteration ⟨sample_state, zero_rand, []⟩ none).1.st :=
  congrArg (fun r : World × Bool => r.1.st)
    (C14_ignored_inputs ⟨sample_state, zero_rand, []⟩
      ⟨EventType.EventTypeKey, ⟨InputType.InputTypeRelease, InputKey.InputKeyRight⟩⟩
      (Or.inr (Or.inl (by decide)))).2

/-- C15 fails as stated: in `f4s_game_app` started on `sample_state`, with one
iteration whose wait on the queue times out, two accesses to the game state are
made without the mutex: the call of `f4s_game_init_game` before the loop and
the read of `game_delay` after the mutex is released. -/
theorem C15_counterexample :
    unguarded false (f4s_game_app_ops sample_state zero_rand [none]) =
      [Op.call_init_game, Op.read StateField.game_delay] ∧
    unguarded false (f4s_game_app_ops sample_state zero_rand [none]) ≠ [] := by
  decide

/-- C15, amended: in program order, `f4s_game_render_callback` reads the game
state only with the mutex held; in every iteration of the loop of
`f4s_game_app` the input part and the tick run with the mutex held, and the one
access made without it is the read of `game_delay` for the sleep, after the
release; over a whole run of `f4s_game_app` the accesses made without the
mutex are the call of `f4s_game_init_game` at startup and those reads of
`game_delay`, and none of them is a write inside the loop. -/
theorem C15_lock_discipline :
    (∀ s : Flip4SpeedState, unguarded false (f4s_game_render_callback_ops s) = []) ∧
    (∀ (w : World) (ev : Option Flip4SpeedEvent),
      unguarded false (loop_iteration_ops w ev) = [Op.read StateField.game_delay] ∧
      held_after false (loop_iteration_ops w ev) = false) ∧
    (∀ (s0 : Flip4SpeedState) (rnd : Nat → Nat) (evs : List (Option Flip4SpeedEvent)),
      ∃ l, unguarded false (f4s_game_app_ops s0 rnd evs) = Op.call_init_game :: l ∧
        ∀ op ∈ l, op = Op.read StateField.game_delay) := by
  refine ⟨?_, ?_, ?_⟩
  · intro s
    cases h : s.game_over <;> simp [f4s_game_render_callback_ops, h, unguarded]
  · intro w ev
    exact loop_iteration_unguarded w ev false
  · intro s0 rnd evs
    refine ⟨unguarded false (game_loop_ops (app_start s0 rnd) evs), ?_, ?_⟩
    · simp [f4s_game_app_ops, unguarded]
    · exact game_loop_unguarded evs _ false

/-- C16: in a tick of a running game, `obstacle_speed` changes exactly when
the tick has no collision, the incremented score is a multiple of 50 and the
speed is below 6, and then it grows by 1; `game_delay` changes exactly when
the tick has no collision, the incremented score is a multiple of 100 and the
delay is above 16, and then it drops by 5. -/
theorem C16_difficulty_step (w : World) (h : w.st.game_over = false) :
    ((f4s_game_process_game_step w).st.game_over = false ↔
      ¬ ∃ i, i < OBSTACLE_COUNT ∧ w.st.obstacle_x.get i = w.st.player_x ∧
        int_add (w.st.obstacle_y.get i) w.st.obstacle_speed ≤ 64 ∧
        int_add (w.st.obstacle_y.get i) w.st.obstacle_speed + 10 ≥ 54) ∧
    ((f4s_game_process_game_step w).st.obstacle_speed ≠ w.st.obstacle_speed ↔
      ((f4s_game_process_game_step w).st.game_over = false ∧
        uint_incr w.st.score % 50 = 0 ∧ w.st.obstacle_speed < 6)) ∧
    ((f4s_game_process_game_step w).st.obstacle_speed ≠ w.st.obstacle_speed →
      (f4s_game_process_game_step w).st.obstacle_speed = w.st.obstacle_speed + 1) ∧
    ((f4s_game_process_game_step w).st.game_delay ≠ w.st.game_delay ↔
      ((f4s_game_process_game_step w).st.game_over = false ∧
        uint_incr w.st.score % 100 = 0 ∧ w.st.game_delay > 16)) ∧
    ((f4s_game_process_game_step w).st.game_delay ≠ w.st.game_delay →
      (f4s_game_process_game_step w).st.game_delay = w.st.game_delay - 5) := by
  refine ⟨?_, ?_, ?_, ?_, ?_⟩
  · rw [← collision_iff w h]
    simp
  · cases h' : (f4s_game_process_game_step w).st.game_over
    · obtain ⟨_, _, hv, _⟩ := step_still_running w h'
      rw [hv]
      split_ifs with hc
      · simp only [true_and]
        constructor
        · intro _; exact hc
        · intro _; omega
      · simp only [true_and, ne_eq, not_true_eq_false, false_iff]
        exact hc
    · rw [(step_collision_keeps w h h').1]
      simp
  · intro hne
    rcases step_obstacle_speed w with e | ⟨_, e⟩
    · exact absurd e hne
    · exact e
  · cases h' : (f4s_game_process_game_step w).st.game_over
    · obtain ⟨_, _, _, hd⟩ := step_still_running w h'
      rw [hd]
      split_ifs with hc
      · simp only [true_and]
        constructor
        · intro _; exact hc
        · intro _; omega
      · simp only [true_and, ne_eq, not_true_eq_false, false_iff]
        exact hc
    · rw [(step_collision_keeps w h h').2]
      simp
  · intro hne
    rcases step_game_delay w with e | ⟨_, e⟩
    · exact absurd e hne
    · exact e

/-- C16, at a sample state: the tick that takes the score from 99 to 100
without a collision changes the speed and the delay. -/
theorem C16_difficulty_step_witness :
    threshold_state.game_over = false ∧
      (f4s_game_process_game_step ⟨threshold_state, zero_rand, []⟩).st.obstacle_speed ≠ 2 ∧
      (f4s_game_process_game_step ⟨threshold_state, zero_rand, []⟩).st.game_delay ≠ 33 :=
  ⟨rfl,
    (C16_difficulty_step ⟨threshold_state, zero_rand, []⟩ rfl).2.1.2
      ⟨by decide, by decide, by decide⟩,
    (C16_difficulty_step ⟨threshold_state, zero_rand, []⟩ rfl).2.2.2.1.2
      ⟨by decide, by decide, by decide⟩⟩

/-- C17, at the failing input: `f4s_game_init_game` on memory whose
`road_offset` holds -5 leaves it at -5, and the first tick makes it -3; neither
is in `[0, 12)`. -/
theorem C17_road_offset_not_initialised :
    (ticks 0 (app_start stale_state zero_rand)).st.road_offset = -5 ∧
      (ticks 1 (app_start stale_state zero_rand)).st.road_offset = -3 ∧
      (ticks 1 (app_start stale_state zero_rand)).st.game_over = false := by
  decide

/-- C18: in every state reached from `f4s_game_init_game` by loop iterations
(any events, any results of `rand()`) in which `game_over` is clear, the two
obstacles have the same `y`; and a tick of a running game whose obstacles have
the same `y` makes them differ only if obstacle 0 hits the player in it, which
sets `game_over`. -/
theorem C18_lockstep :
    (∀ (s0 : Flip4SpeedState) (rnd : Nat → Nat) (evs : List (Option Flip4SpeedEvent)),
      (f4s_game_app s0 rnd evs).st.game_over = false →
      (f4s_game_app s0 rnd evs).st.obstacle_y.get 0 =
        (f4s_game_app s0 rnd evs).st.obstacle_y.get 1) ∧
    (∀ (s0 : Flip4SpeedState) (rnd : Nat → Nat) (evs : List (Option Flip4SpeedEvent)),
      (f4s_game_app s0 rnd evs).st.obstacle_y.get 0 ≠
        (f4s_game_app s0 rnd evs).st.obstacle_y.get 1 →
      (f4s_game_app s0 rnd evs).st.game_over = true) ∧
    (∀ w : World, w.st.game_over = false →
      w.st.obstacle_y.get 0 = w.st.obstacle_y.get 1 →
      (f4s_game_process_game_step w).st.obstacle_y.get 0 ≠
        (f4s_game_process_game_step w).st.obstacle_y.get 1 →
      (f4s_game_process_game_step w).st.game_over = true ∧
      w.st.obstacle_x.get 0 = w.st.player_x ∧
      int_add (w.st.obstacle_y.get 0) w.st.obstacle_speed ≤ 64 ∧
      int_add (w.st.obstacle_y.get 0) w.st.obstacle_speed + 10 ≥ 54) := by
  refine ⟨?_, ?_, ?_⟩
  · intro s0 rnd evs h
    exact lockstep_invariant s0 rnd evs h
  · intro s0 rnd evs hne
    cases h : (f4s_game_app s0 rnd evs).st.game_over
    · exact absurd (lockstep_invariant s0 rnd evs h) hne
    · rfl
  · intro w h hy hne
    simp only [IntArray2.get_zero, IntArray2.get_one] at hy hne ⊢
    rcases step_lockstep w h hy with e | hc
    · exact absurd e hne
    · refine ⟨?_, hc.1, hc.2.1, by omega⟩
      exact (collision_iff w h).2 ⟨0, by decide, by simpa using hc.1,
        by simpa using hc.2.1, by simpa using hc.2.2⟩

/-- C18, at a sample state: obstacle 0 hits the player, obstacle 1 stays
behind. -/
theorem C18_lockstep_witness :
    hit_state.game_over = false ∧
      (f4s_game_process_game_step ⟨hit_state, zero_rand, []⟩).st.obstacle_y = ⟨52, 50⟩ ∧
      (f4s_game_process_game_step ⟨hit_state, zero_rand, []⟩).st.game_over = true :=
  ⟨rfl, by decide,
    (C18_lockstep.2.2 ⟨hit_state, zero_rand, []⟩ rfl rfl (by decide)).1⟩

/-- C19: in every state reached from `f4s_game_init_game` by loop iterations
each obstacle has `x` among 40, 56, 72 and `y` in `[-10, 64]`; and an obstacle
recycled in a tick does not hit the player in that tick, whatever lane it got:
the pass through the loop body that recycles it does not return, and the tick
ends the game only if the other obstacle hits the player. -/
theorem C19_obstacle_range :
    (∀ (s0 : Flip4SpeedState) (rnd : Nat → Nat) (evs : List (Option Flip4SpeedEvent)) (i : Nat),
      i < OBSTACLE_COUNT →
      ((f4s_game_app s0 rnd evs).st.obstacle_x.get i = 40 ∨
        (f4s_game_app s0 rnd evs).st.obstacle_x.get i = 56 ∨
        (f4s_game_app s0 rnd evs).st.obstacle_x.get i = 72) ∧
      -10 ≤ (f4s_game_app s0 rnd evs).st.obstacle_y.get i ∧
      (f4s_game_app s0 rnd evs).st.obstacle_y.get i ≤ 64) ∧
    (∀ (w : World) (i : Nat),
      64 < int_add (w.st.obstacle_y.get i) w.st.obstacle_speed →
      (obstacle_body w i).2 = false ∧ (obstacle_body w i).1.st.obstacle_y.get i = -10 ∧
      (obstacle_body w i).1.st.game_over = w.st.game_over) ∧
    (∀ (w : World) (i : Nat), w.st.game_over = false → i < OBSTACLE_COUNT →
      64 < int_add (w.st.obstacle_y.get i) w.st.obstacle_speed →
      (f4s_game_process_game_step w).st.game_over = true →
      ∃ j, j < OBSTACLE_COUNT ∧ j ≠ i ∧ w.st.obstacle_x.get j = w.st.player_x ∧
        int_add (w.st.obstacle_y.get j) w.st.obstacle_speed ≤ 64 ∧
        int_add (w.st.obstacle_y.get j) w.st.obstacle_speed + 10 ≥ 54) := by
  refine ⟨?_, ?_, ?_⟩
  · intro s0 rnd evs i hi
    obtain ⟨_, hx0, hx1, hy0, hy1⟩ := in_range_app s0 rnd evs
    simp only [OBSTACLE_COUNT] at hi
    interval_cases i
    · exact ⟨hx0, hy0.1, hy0.2⟩
    · exact ⟨hx1, hy1.1, hy1.2⟩
  · intro w i hy
    have hf : (obstacle_body w i).2 = false := by
      cases hb : (obstacle_body w i).2
      · rfl
      · have := ((obstacle_body_flag w i).1 hb).1
        omega
    refine ⟨hf, ?_, ?_⟩
    · rw [obstacle_body_y_self, if_pos hy]
    · rw [obstacle_body_game_over, hf]; simp
  · intro w i h hi hy h'
    obtain ⟨j, hj, hx, h1, h2⟩ := (collision_iff w h).1 h'
    refine ⟨j, hj, ?_, hx, h1, h2⟩
    intro hji
    rw [hji] at h1
    omega

/-- C19, at a sample state: both obstacles are recycled in the tick, obstacle
0 in the player's lane, and the game goes on. -/
theorem C19_obstacle_range_witness :
    (obstacle_body ⟨recycle_state, zero_rand, []⟩ 0).2 = false :=
  (C19_obstacle_range.2.1 ⟨recycle_state, zero_rand, []⟩ 0 (by decide)).1

/-- C20: in a game that is over, an iteration whose event is anything but a
press of Ok (no event included) leaves `game_over` set and leaves the score,
the speed, the delay, `road_offset` and both obstacles unchanged; and an
iteration takes `game_over` from clear to set only in its tick, when an
obstacle hits the player. -/
theorem C20_game_over_absorbing :
    (∀ (w : World) (ev : Option Flip4SpeedEvent), w.st.game_over = true →
      ev ≠ some (key_press InputKey.InputKeyOk) →
      (loop_iteration w ev).1.st.game_over = true ∧
      (loop_iteration w ev).1.st.score = w.st.score ∧
      (loop_iteration w ev).1.st.obstacle_speed = w.st.obstacle_speed ∧
      (loop_iteration w ev).1.st.game_delay = w.st.game_delay ∧
      (loop_iteration w ev).1.st.road_offset = w.st.road_offset ∧
      (loop_iteration w ev).1.st.obstacle_x = w.st.obstacle_x ∧
      (loop_iteration w ev).1.st.obstacle_y = w.st.obstacle_y ∧
      (loop_iteration w ev).1.log = w.log) ∧
    (∀ (w : World) (ev : Option Flip4SpeedEvent), w.st.game_over = false →
      (loop_iteration w ev).1.st.game_over = true →
      (apply_event w ev).1.st.game_over = false ∧
      ∃ i, i < OBSTACLE_COUNT ∧
        (apply_event w ev).1.st.obstacle_x.get i = (apply_event w ev).1.st.player_x ∧
        int_add ((apply_event w ev).1.st.obstacle_y.get i)
          (apply_event w ev).1.st.obstacle_speed ≤ 64 ∧
        int_add ((apply_event w ev).1.st.obstacle_y.get i)
          (apply_event w ev).1.st.obstacle_speed + 10 ≥ 54) := by
  constructor
  · intro w ev h hev
    obtain ⟨p, e⟩ := apply_event_over w ev hev
    rw [loop_iteration_eq, e]
    simp only
    rw [step_game_over_eq _ (by exact h)]
    exact ⟨h, rfl, rfl, rfl, rfl, rfl, rfl, rfl⟩
  · intro w ev h h'
    have hr := (apply_event_running w ev h).1
    rw [loop_iteration_eq] at h'
    exact ⟨hr, (collision_iff _ hr).1 h'⟩

/-- C20, at a sample state: a press of Left in a game that is over. -/
theorem C20_game_over_absorbing_witness :
    over_state.game_over = true ∧
      (loop_iteration ⟨over_state, zero_rand, []⟩
        (some (key_press InputKey.InputKeyLeft))).1.st.game_over = true :=
  ⟨rfl, (C20_game_over_absorbing.1 ⟨over_state, zero_rand, []⟩
    (some (key_press InputKey.InputKeyLeft)) rfl (by decide)).1⟩

end F4S
